import Mathlib

/-!
# novelai-web: admission control and generation pipeline

A shallow embedding of `internal/service/ratelimit.go`,
`internal/middleware/ratelimit.go`, `internal/service/novelai.go`,
`internal/service/image.go` and `internal/handler/image.go`.

Conventions of the embedding:

* every `time.Now()` of the source becomes an explicit argument; a request
  handler receives one reading per ledger call it makes (`Clock`);
* the mutex of `RateLimitService` is not modelled: calls are sequential;
* network, random source, file system and database are explicit inputs.
-/

namespace NovelAI

/-! ## Time (Go `time` package) -/

/-- An instant, in nanoseconds since the zero value of Go's `time.Time`
(January 1, year 1, 00:00:00 UTC). -/
abbrev Time := Int

/-- A Go `time.Duration`: a signed 64-bit count of nanoseconds. -/
abbrev Duration := Int

/-- The constant `time.Second`. -/
def Second : Duration := 1000000000

/-- The constant `time.Hour`. -/
def Hour : Duration := 3600 * Second

/-- The smallest `time.Duration`. -/
def minDuration : Duration := -9223372036854775808

/-- The largest `time.Duration`. -/
def maxDuration : Duration := 9223372036854775807

/-- `t.Sub(u)`: the duration `t - u`, clamped to the range of `time.Duration`
as documented for `Time.Sub`. -/
def Time.Sub (t u : Time) : Duration :=
  if t - u < minDuration then minDuration
  else if maxDuration < t - u then maxDuration
  else t - u

/-- `t.IsZero()`. -/
def Time.IsZero (t : Time) : Bool := decide (t = 0)

/-- `t.Before(u)`. -/
def Time.Before (t u : Time) : Bool := decide (t < u)

/-- `t.Add(d)`. -/
def Time.Add (t : Time) (d : Duration) : Time := t + d

/-! ## The admission ledger (`internal/service/ratelimit.go`) -/

/-- `IPRecord`: what the ledger remembers about one client. The zero value of
`TurnstileVerified` means "never verified". -/
structure IPRecord where
  LastRequest : Time
  TurnstileVerified : Time
deriving DecidableEq, Repr

/-- `RateLimitService`. The map `ipRecords` is a finite map from client
identity to record; absent keys are `none`. -/
structure RateLimitService where
  globalLastRequest : Time
  ipRecords : String → Option IPRecord
  privilegeKey : String
  globalInterval : Duration
  ipInterval : Duration
  turnstileInterval : Duration

/-- `NewRateLimitService`. -/
def NewRateLimitService (privilegeKey : String) : RateLimitService where
  globalLastRequest := 0
  ipRecords := fun _ => none
  privilegeKey := privilegeKey
  globalInterval := 10 * Second
  ipInterval := 30 * Second
  turnstileInterval := 1 * 60 * Second

/-- `CheckGlobalRateLimit`, with the clock reading `now`. -/
def CheckGlobalRateLimit (r : RateLimitService) (now : Time) : Bool :=
  decide (Time.Sub now r.globalLastRequest ≥ r.globalInterval)

/-- `CheckIPRateLimit`. -/
def CheckIPRateLimit (r : RateLimitService) (ip : String) (now : Time) : Bool :=
  match r.ipRecords ip with
  | none => true
  | some record => decide (Time.Sub now record.LastRequest ≥ r.ipInterval)

/-- `CheckTurnstileRequired`. -/
def CheckTurnstileRequired (r : RateLimitService) (ip : String) (now : Time) : Bool :=
  match r.ipRecords ip with
  | none => true
  | some record =>
    if Time.IsZero record.TurnstileVerified then true
    else decide (Time.Sub now record.TurnstileVerified ≥ r.turnstileInterval)

/-- `UpdateGlobalRequest`. -/
def UpdateGlobalRequest (r : RateLimitService) (now : Time) : RateLimitService :=
  { r with globalLastRequest := now }

/-- The record stored under `ip` after `if r.ipRecords[ip] == nil
{ r.ipRecords[ip] = &IPRecord{} }`. -/
def recordOrNew (r : RateLimitService) (ip : String) : IPRecord :=
  match r.ipRecords ip with
  | none => { LastRequest := 0, TurnstileVerified := 0 }
  | some record => record

/-- `UpdateIPRequest`. -/
def UpdateIPRequest (r : RateLimitService) (ip : String) (now : Time) : RateLimitService :=
  { r with ipRecords := fun k =>
      if k = ip then some { recordOrNew r ip with LastRequest := now } else r.ipRecords k }

/-- `UpdateTurnstileVerification`. -/
def UpdateTurnstileVerification (r : RateLimitService) (ip : String) (now : Time) :
    RateLimitService :=
  { r with ipRecords := fun k =>
      if k = ip then some { recordOrNew r ip with TurnstileVerified := now } else r.ipRecords k }

/-- `CheckPrivilegeKey`. -/
def CheckPrivilegeKey (r : RateLimitService) (key : String) : Bool :=
  decide (r.privilegeKey ≠ "") && decide (key = r.privilegeKey)

/-- `CleanupOldRecords`: the loop deletes every entry whose two timestamps
are both before the cutoff. -/
def CleanupOldRecords (r : RateLimitService) (now : Time) : RateLimitService :=
  let cutoff := Time.Add now (-24 * Hour)
  { r with ipRecords := fun k =>
      match r.ipRecords k with
      | none => none
      | some record =>
        if Time.Before record.LastRequest cutoff && Time.Before record.TurnstileVerified cutoff
        then none else some record }

/-! ## The admission controller (`internal/middleware/ratelimit.go`) -/

/-- What the middleware reads from the request: the client identity computed by
`getClientIP`, and the headers and query parameter it looks at (`""` when
absent). -/
structure Request where
  clientIP : String
  privilegeKey : String
  headerToken : String
  queryToken : String
deriving DecidableEq, Repr

/-- One clock reading for each ledger call `RateLimitMiddleware` can make, in
the order of the calls. -/
structure Clock where
  checkGlobal : Time
  checkIP : Time
  checkTurnstile : Time
  updateTurnstile : Time
  updateGlobal : Time
  updateIP : Time
deriving DecidableEq, Repr

/-- The clock of a request that is processed at the single instant `t`. -/
def Clock.instant (t : Time) : Clock := ⟨t, t, t, t, t, t⟩

/-- How the middleware ends: `c.Next()`, or `c.JSON(status, {code: ...})`
followed by `c.Abort()`. -/
inductive Decision where
  | next
  | abort (status : Nat) (code : String)
deriving DecidableEq, Repr

/-- One call `verifyTurnstileToken(token, clientIP, secret)`. -/
structure VerifyCall where
  token : String
  clientIP : String
  secret : String
deriving DecidableEq, Repr

/-- `verifyTurnstileToken`. The round trip to the remote verifier, with every
transport or decoding failure already mapped to `false`, is the function
`siteverify secret token clientIP`. -/
def verifyTurnstileToken (siteverify : String → String → String → Bool)
    (token clientIP secret : String) : Bool :=
  if secret = "" then true else siteverify secret token clientIP

/-- The ledger after the request, the decision, and the calls made to
`verifyTurnstileToken`. -/
structure MiddlewareResult where
  service : RateLimitService
  decision : Decision
  verifyCalls : List VerifyCall

/-- The token the middleware uses: header `X-Turnstile-Token`, and the query
parameter `turnstile_token` when the header is empty. -/
def turnstileTokenOf (req : Request) : String :=
  if req.headerToken = "" then req.queryToken else req.headerToken

/-- `RateLimitMiddleware`. -/
def RateLimitMiddleware (siteverify : String → String → String → Bool)
    (turnstileSecret : String) (rateLimitService : RateLimitService)
    (clk : Clock) (req : Request) : MiddlewareResult :=
  let clientIP := req.clientIP
  if CheckPrivilegeKey rateLimitService req.privilegeKey then
    let s1 := UpdateGlobalRequest rateLimitService clk.updateGlobal
    let s2 := UpdateIPRequest s1 clientIP clk.updateIP
    ⟨s2, Decision.next, []⟩
  else if !CheckGlobalRateLimit rateLimitService clk.checkGlobal then
    ⟨rateLimitService, Decision.abort 429 "GLOBAL_RATE_LIMIT", []⟩
  else if !CheckIPRateLimit rateLimitService clientIP clk.checkIP then
    ⟨rateLimitService, Decision.abort 429 "IP_RATE_LIMIT", []⟩
  else if CheckTurnstileRequired rateLimitService clientIP clk.checkTurnstile then
    let turnstileToken := turnstileTokenOf req
    if turnstileToken ≠ "" then
      if verifyTurnstileToken siteverify turnstileToken clientIP turnstileSecret then
        let s1 := UpdateTurnstileVerification rateLimitService clientIP clk.updateTurnstile
        let s2 := UpdateGlobalRequest s1 clk.updateGlobal
        let s3 := UpdateIPRequest s2 clientIP clk.updateIP
        ⟨s3, Decision.next, [⟨turnstileToken, clientIP, turnstileSecret⟩]⟩
      else
        ⟨rateLimitService, Decision.abort 401 "INVALID_TURNSTILE",
          [⟨turnstileToken, clientIP, turnstileSecret⟩]⟩
    else
      ⟨rateLimitService, Decision.abort 401 "TURNSTILE_REQUIRED", []⟩
  else
    let s1 := UpdateGlobalRequest rateLimitService clk.updateGlobal
    let s2 := UpdateIPRequest s1 clientIP clk.updateIP
    ⟨s2, Decision.next, []⟩

/-! ## The generation orchestrator (`internal/service/novelai.go`) -/

/-- A Go byte slice; each element is one byte value. -/
abbrev Bytes := List Nat

/-- The bytes of an ASCII literal. -/
def bytesOf (s : String) : Bytes := s.toList.map Char.toNat

/-- The byte lies in `[lo, hi]`. -/
def inRange (lo hi b : Nat) : Bool := decide (lo ≤ b ∧ b ≤ hi)

/-- The first rune of a byte sequence and the number of bytes it takes, as
`utf8.DecodeRune` gives them: a byte that starts no valid UTF-8 sequence
yields U+FFFD and width 1. -/
def decodeRune : Bytes → Char × Nat
  | [] => (Char.ofNat 65533, 0)
  | b0 :: rest =>
    if b0 < 128 then (Char.ofNat b0, 1)
    else if inRange 194 223 b0 then
      match rest with
      | b1 :: _ =>
        if inRange 128 191 b1 then (Char.ofNat ((b0 - 192) * 64 + (b1 - 128)), 2)
        else (Char.ofNat 65533, 1)
      | _ => (Char.ofNat 65533, 1)
    else if inRange 224 239 b0 then
      match rest with
      | b1 :: b2 :: _ =>
        if inRange (if b0 = 224 then 160 else 128) (if b0 = 237 then 159 else 191) b1
            && inRange 128 191 b2 then
          (Char.ofNat ((b0 - 224) * 4096 + (b1 - 128) * 64 + (b2 - 128)), 3)
        else (Char.ofNat 65533, 1)
      | _ => (Char.ofNat 65533, 1)
    else if inRange 240 244 b0 then
      match rest with
      | b1 :: b2 :: b3 :: _ =>
        if inRange (if b0 = 240 then 144 else 128) (if b0 = 244 then 143 else 191) b1
            && inRange 128 191 b2 && inRange 128 191 b3 then
          (Char.ofNat ((b0 - 240) * 262144 + (b1 - 128) * 4096 + (b2 - 128) * 64 + (b3 - 128)),
            4)
        else (Char.ofNat 65533, 1)
      | _ => (Char.ofNat 65533, 1)
    else (Char.ofNat 65533, 1)

/-- The runes of a byte sequence; `fuel` bounds the number of runes. -/
def decodeRunes : Nat → Bytes → List Char
  | 0, _ => []
  | _ + 1, [] => []
  | fuel + 1, b :: bs =>
    (decodeRune (b :: bs)).1 :: decodeRunes fuel ((b :: bs).drop (decodeRune (b :: bs)).2)

/-- The conversion `string(b)` of a byte slice, used inside error texts. Go
keeps the bytes; the text here is their reading as UTF-8, in which a byte
that belongs to no valid sequence shows as U+FFFD. -/
def goString (b : Bytes) : String := String.mk (decodeRunes b.length b)

/-- A Go call that either returns normally or stops with a run-time panic. -/
inductive Run (α : Type) where
  | done (a : α)
  | panic (msg : String)
deriving Repr

/-- `GenerationRequest`. -/
structure GenerationRequest where
  Prompt : String
  NegativePrompt : String
  Seed : Int
  Steps : Int
  Width : Int
  Height : Int
deriving DecidableEq, Repr

/-- An element of a `[]any` slice; the payload only ever holds empty slices. -/
abbrev GoAny := Unit

/-- `V4Caption`. -/
structure V4Caption where
  BaseCaption : String
  CharCaptions : List GoAny
deriving DecidableEq, Repr

/-- `V4Prompt`. -/
structure V4Prompt where
  Caption : V4Caption
  UseCoords : Bool
  UseOrder : Bool
deriving DecidableEq, Repr

/-- `NovelAIParameters`. The field `SkipCfgAboveSigma` is a `*float64` that is
always `nil`; only its presence is modelled. -/
structure NovelAIParameters where
  ParamsVersion : Int
  PreferBrownian : Bool
  NegativePrompt : String
  Height : Int
  Width : Int
  Scale : Int
  Seed : Int
  Sampler : String
  NoiseSchedule : String
  Steps : Int
  NSamples : Int
  UCPreset : Int
  QualityToggle : Bool
  AddOriginalImage : Bool
  ControlnetStrength : Int
  DeliberateEulerAncestralBug : Bool
  DynamicThresholding : Bool
  Legacy : Bool
  LegacyV3Extend : Bool
  SM : Bool
  SMDyn : Bool
  UncondScale : Int
  SkipCfgAboveSigma : Option Unit
  UseCoords : Bool
  CharacterPrompts : List GoAny
  ReferenceImageMultiple : List GoAny
  ReferenceInformationExtractedMultiple : List GoAny
  ReferenceStrengthMultiple : List GoAny
  V4NegativePrompt : V4Prompt
  V4Prompt : V4Prompt
deriving DecidableEq, Repr

/-- `NovelAIPayload`. -/
structure NovelAIPayload where
  Action : String
  Input : String
  Model : String
  Parameters : NovelAIParameters
deriving DecidableEq, Repr

/-- `rand.Int63n(n)` for `n > 0`: the library returns `v % n`, where `v` is the
63-bit value of the random source that its rejection loop accepts. -/
def Int63n (n : Int) (v : Nat) : Int := (v : Int) % n

/-- The seed placed in the payload: `seed := req.Seed; if seed == -1
{ seed = rand.Int63n(9999999999) }`. -/
def resolveSeed (reqSeed : Int) (rnd : Nat) : Int :=
  if reqSeed = -1 then Int63n 9999999999 rnd else reqSeed

/-- The payload literal of `GenerateImage`. -/
def buildPayload (req : GenerationRequest) (seed : Int) : NovelAIPayload where
  Action := "generate"
  Input := req.Prompt
  Model := "nai-diffusion-4-5-full"
  Parameters :=
    { ParamsVersion := 3
      PreferBrownian := true
      NegativePrompt := req.NegativePrompt
      Height := req.Height
      Width := req.Width
      Scale := 5
      Seed := seed
      Sampler := "k_euler_ancestral"
      NoiseSchedule := "karras"
      Steps := req.Steps
      NSamples := 1
      UCPreset := 0
      QualityToggle := false
      AddOriginalImage := false
      ControlnetStrength := 1
      DeliberateEulerAncestralBug := false
      DynamicThresholding := true
      Legacy := false
      LegacyV3Extend := false
      SM := false
      SMDyn := false
      UncondScale := 1
      SkipCfgAboveSigma := none
      UseCoords := false
      CharacterPrompts := []
      ReferenceImageMultiple := []
      ReferenceInformationExtractedMultiple := []
      ReferenceStrengthMultiple := []
      V4NegativePrompt :=
        { Caption := { BaseCaption := req.NegativePrompt, CharCaptions := [] }
          UseCoords := false
          UseOrder := false }
      V4Prompt :=
        { Caption := { BaseCaption := req.Prompt, CharCaptions := [] }
          UseCoords := false
          UseOrder := true } }

/-- One member of a parsed archive (`zip.File`): its name, and what
`file.Open()` followed by `io.ReadAll` gives (outer error: the open failed,
inner error: the read failed). -/
structure ZipFile where
  Name : Bytes
  Open : Except String (Except String Bytes)

/-- The loop of `extractPNGFromZip` over `reader.File`. The slice expression
`file.Name[len(file.Name)-4:]` panics when the name has fewer than four
bytes. -/
def extractPNGLoop : List ZipFile → Run (Except String Bytes)
  | [] => Run.done (Except.error "no PNG file found in zip")
  | file :: rest =>
    if file.Name.length < 4 then
      Run.panic "slice bounds out of range"
    else if file.Name.drop (file.Name.length - 4) = bytesOf ".png" then
      match file.Open with
      | Except.error e => Run.done (Except.error ("failed to open file in zip: " ++ e))
      | Except.ok (Except.error e) =>
        Run.done (Except.error ("failed to read file in zip: " ++ e))
      | Except.ok (Except.ok data) => Run.done (Except.ok data)
    else extractPNGLoop rest

/-- `extractPNGFromZip`; `zipNewReader` is `zip.NewReader` on the bytes. -/
def extractPNGFromZip (zipNewReader : Bytes → Except String (List ZipFile))
    (zipData : Bytes) : Run (Except String Bytes) :=
  match zipNewReader zipData with
  | Except.error e => Run.done (Except.error ("failed to read zip: " ++ e))
  | Except.ok files => extractPNGLoop files

/-- What `client.Do` hands back: the status code and what `io.ReadAll` of the
body yields (the bytes read, and the read error if any). -/
structure HTTPResponse where
  StatusCode : Int
  Body : Bytes
  BodyErr : Option String

/-- Everything outside the process that one call of `GenerateImage` touches. -/
structure Provider where
  rnd : Nat
  marshal : NovelAIPayload → Except String String
  newRequest : String → Except String Unit
  send : String → String → Except String HTTPResponse
  zipNewReader : Bytes → Except String (List ZipFile)

/-- `NovelAIService` (the HTTP client is part of `Provider`). -/
structure NovelAIService where
  apiKey : String

/-- The three results of `GenerateImage` (`imageData` is `none` for `nil`,
`err` is `none` for a `nil` error), the request struct behind the pointer
after the call, and the body that was posted, if a request was sent. -/
structure GenerateResult where
  imageData : Option Bytes
  payload : String
  err : Option String
  req : GenerationRequest
  posted : Option String

/-- `NovelAIService.GenerateImage`. -/
def NovelAIService.GenerateImage (s : NovelAIService) (env : Provider)
    (req : GenerationRequest) : Run GenerateResult :=
  let seed := resolveSeed req.Seed env.rnd
  let payload := buildPayload req seed
  match env.marshal payload with
  | Except.error e =>
    Run.done ⟨none, "", some ("failed to marshal payload: " ++ e), req, none⟩
  | Except.ok payloadBytes =>
    match env.newRequest payloadBytes with
    | Except.error e =>
      Run.done ⟨none, "", some ("failed to create request: " ++ e), req, none⟩
    | Except.ok _ =>
      match env.send s.apiKey payloadBytes with
      | Except.error e =>
        Run.done ⟨none, "", some ("failed to send request: " ++ e), req, some payloadBytes⟩
      | Except.ok resp =>
        if resp.StatusCode ≠ 200 then
          Run.done ⟨none, "",
            some ("API error " ++ toString resp.StatusCode ++ ": " ++ goString resp.Body),
            req, some payloadBytes⟩
        else
          match resp.BodyErr with
          | some e =>
            Run.done ⟨none, "", some ("failed to read response: " ++ e), req,
              some payloadBytes⟩
          | none =>
            match extractPNGFromZip env.zipNewReader resp.Body with
            | Run.panic msg => Run.panic msg
            | Run.done (Except.error e) =>
              Run.done ⟨none, "", some ("failed to extract image: " ++ e), req,
                some payloadBytes⟩
            | Run.done (Except.ok imageData) =>
              Run.done ⟨some imageData, payloadBytes, none, req, some payloadBytes⟩

/-! ## The outcome recorder (`internal/service/image.go`) -/

/-- `model.ImageGeneration`. The columns `CreatedAt`, `UpdatedAt` and
`DeletedAt`, which only the database layer writes, are left out. -/
structure ImageGeneration where
  ID : Nat
  Prompt : String
  NegativePrompt : String
  Seed : Int
  Steps : Int
  Width : Int
  Height : Int
  StylePresetID : Option Nat
  OriginalPayload : String
  FilePath : String
  FileName : String
  FileSize : Int
  Status : String
  ErrorMessage : String
  GenerationTime : Int
deriving DecidableEq, Repr

/-- The file system under the image directory and the `image_generations`
table. -/
structure Storage where
  files : String → Option Bytes
  rows : List ImageGeneration
  nextID : Nat

/-- What the environment decides during one call of the handler: the two
renderings of `time.Now()`, and for each file-system or database call the
error it returns, if any. -/
structure StorageEnv where
  timestamp : String
  yearMonth : String
  mkdirErr : Option String
  writeErr : Option String
  createErr : Option String
  removeErr : Option String
  updateErr : Option String

/-- `ImageService` (the database handle is part of `Storage`). -/
structure ImageService where
  imagesDir : String

/-- The elements of a path between its separators: `splitOnSlash [] p` cuts
`p` at every `/`; `cur` holds the element being read, in reverse. -/
def splitOnSlash : List Char → List Char → List (List Char)
  | cur, [] => [cur.reverse]
  | cur, c :: cs =>
    if c = '/' then cur.reverse :: splitOnSlash [] cs else splitOnSlash (c :: cur) cs

/-- The loop of `filepath.Clean`, element by element: empty elements and `.`
are dropped; `..` removes the element before it, is dropped at the root, and
is kept where nothing is left to remove; `stack` holds the output elements in
reverse. -/
def cleanElements (rooted : Bool) : List (List Char) → List (List Char) → List (List Char)
  | stack, [] => stack.reverse
  | stack, e :: es =>
    if e = [] ∨ e = ['.'] then cleanElements rooted stack es
    else if e = ['.', '.'] then
      match stack with
      | top :: below =>
        if top ≠ ['.', '.'] then cleanElements rooted below es
        else if rooted then cleanElements rooted stack es
        else cleanElements rooted (e :: stack) es
      | [] =>
        if rooted then cleanElements rooted [] es else cleanElements rooted [e] es
    else cleanElements rooted (e :: stack) es

/-- Elements joined by `/`. -/
def joinSlash : List (List Char) → List Char
  | [] => []
  | [e] => e
  | e :: es => e ++ '/' :: joinSlash es

/-- The last step of `filepath.Clean`: an empty result becomes ".". -/
def orDot (out : List Char) : String := if out = [] then "." else String.mk out

/-- `filepath.Clean` with `/` as separator. -/
def Clean (path : String) : String :=
  if path = "" then "."
  else
    let rooted := decide (path.toList.head? = some '/')
    let body := joinSlash (cleanElements rooted [] (splitOnSlash [] path.toList))
    orDot (if rooted then '/' :: body else body)

/-- `filepath.Join` of two elements: leading empty elements are skipped, the
rest is joined by the separator and cleaned; the join of two empty elements
is empty. -/
def filepathJoin (a b : String) : String :=
  if a ≠ "" then Clean (a ++ "/" ++ b) else if b ≠ "" then Clean b else ""

/-- The column defaults declared on `model.ImageGeneration`, which the
database layer substitutes for zero values on insert. -/
def applyDefaults (g : ImageGeneration) : ImageGeneration :=
  { g with
    Steps := if g.Steps = 0 then 28 else g.Steps
    Width := if g.Width = 0 then 832 else g.Width
    Height := if g.Height = 0 then 1216 else g.Height
    Status := if g.Status = "" then "pending" else g.Status }

/-- `s.db.Create(generation)`: on success the row gets a fresh primary key
and is stored; the struct behind the pointer is updated likewise. -/
def dbCreate (env : StorageEnv) (st : Storage) (generation : ImageGeneration) :
    Storage × Except String ImageGeneration :=
  match env.createErr with
  | some e => (st, Except.error e)
  | none =>
    let row := { applyDefaults generation with ID := st.nextID }
    ({ st with rows := st.rows ++ [row], nextID := st.nextID + 1 }, Except.ok row)

/-- `os.WriteFile(fullPath, data, 0644)`. -/
def osWriteFile (env : StorageEnv) (st : Storage) (fullPath : String) (data : Bytes) :
    Storage × Option String :=
  match env.writeErr with
  | some e => (st, some e)
  | none => ({ st with files := fun k => if k = fullPath then some data else st.files k }, none)

/-- `os.Remove(fullPath)`. -/
def osRemove (env : StorageEnv) (st : Storage) (fullPath : String) : Storage :=
  match env.removeErr with
  | some _ => st
  | none => { st with files := fun k => if k = fullPath then none else st.files k }

/-- `ImageService.SaveImageGeneration`. -/
def ImageService.SaveImageGeneration (s : ImageService) (env : StorageEnv) (st : Storage)
    (prompt negativePrompt : String) (seed : Int) (steps width height : Int)
    (stylePresetID : Option Nat) (originalPayload : String) (imageData : Bytes) :
    Storage × Except String ImageGeneration :=
  let timestamp := env.timestamp
  let fileName := "novelai_" ++ timestamp ++ "_" ++ toString seed ++ ".png"
  let yearMonth := env.yearMonth
  let dirPath := filepathJoin s.imagesDir yearMonth
  match env.mkdirErr with
  | some e => (st, Except.error ("failed to create directory: " ++ e))
  | none =>
    let fullPath := filepathJoin dirPath fileName
    let relativePath := filepathJoin yearMonth fileName
    match osWriteFile env st fullPath imageData with
    | (st1, some e) => (st1, Except.error ("failed to save image file: " ++ e))
    | (st1, none) =>
      let generation : ImageGeneration :=
        { ID := 0
          Prompt := prompt
          NegativePrompt := negativePrompt
          Seed := seed
          Steps := steps
          Width := width
          Height := height
          StylePresetID := stylePresetID
          OriginalPayload := originalPayload
          FilePath := relativePath
          FileName := fileName
          FileSize := imageData.length
          Status := "success"
          ErrorMessage := ""
          GenerationTime := 0 }
      match dbCreate env st1 generation with
      | (st2, Except.error e) =>
        (osRemove env st2 fullPath, Except.error ("failed to save to database: " ++ e))
      | (st2, Except.ok row) => (st2, Except.ok row)

/-- `ImageService.SaveFailedGeneration`. -/
def ImageService.SaveFailedGeneration (_s : ImageService) (env : StorageEnv) (st : Storage)
    (prompt negativePrompt : String) (seed : Int) (steps width height : Int)
    (stylePresetID : Option Nat) (originalPayload : String) (errorMessage : String) :
    Storage × Except String ImageGeneration :=
  let generation : ImageGeneration :=
    { ID := 0
      Prompt := prompt
      NegativePrompt := negativePrompt
      Seed := seed
      Steps := steps
      Width := width
      Height := height
      StylePresetID := stylePresetID
      OriginalPayload := originalPayload
      FilePath := ""
      FileName := ""
      FileSize := 0
      Status := "failed"
      ErrorMessage := errorMessage
      GenerationTime := 0 }
  match dbCreate env st generation with
  | (st1, Except.error e) => (st1, Except.error ("failed to save failed generation: " ++ e))
  | (st1, Except.ok row) => (st1, Except.ok row)

/-- `ImageService.UpdateGenerationTime`; the handler ignores its error. -/
def ImageService.UpdateGenerationTime (_s : ImageService) (env : StorageEnv) (st : Storage)
    (id : Nat) (generationTime : Int) : Storage :=
  match env.updateErr with
  | some _ => st
  | none =>
    { st with rows := st.rows.map fun g =>
        if g.ID = id then { g with GenerationTime := generationTime } else g }

/-! ## The generate handler (`internal/handler/image.go`) -/

/-- `GenerateImageRequest`, as bound from the JSON body. -/
structure GenerateImageRequest where
  Prompt : String
  NegativePrompt : String
  Seed : Int
  Steps : Int
  Width : Int
  Height : Int
  StylePresetID : Option Nat
deriving DecidableEq, Repr

/-- `GenerateImageResponse`. -/
structure GenerateImageResponse where
  ID : Nat
  ImageURL : String
  Seed : Int
  Message : String
deriving DecidableEq, Repr

/-- The bodies the generate handler writes with `c.JSON`. -/
inductive HandlerResponse where
  | badRequest (error : String)
  | generateFailed (details : String) (id : Nat)
  | saveFailed (details : String)
  | ok (resp : GenerateImageResponse)
deriving DecidableEq, Repr

/-- The default negative prompt of the handler. -/
def defaultNegativePrompt : String :=
  "bad anatomy, bad hands, text, error, missing fingers, extra digit, fewer digits, cropped, worst quality, low quality, normal quality, jpeg artifacts, signature, watermark, username, blurry"

/-- The block "set default values" of the handler. -/
def withDefaults (req : GenerateImageRequest) : GenerateImageRequest :=
  { req with
    Steps := if req.Steps ≤ 0 then 28 else req.Steps
    Width := if req.Width ≤ 0 then 832 else req.Width
    Height := if req.Height ≤ 0 then 1216 else req.Height
    NegativePrompt := if req.NegativePrompt = "" then defaultNegativePrompt
      else req.NegativePrompt }

/-- The request the handler hands to the orchestrator (`novelaiReq`). -/
def novelaiReqOf (req : GenerateImageRequest) : GenerationRequest where
  Prompt := req.Prompt
  NegativePrompt := req.NegativePrompt
  Seed := req.Seed
  Steps := req.Steps
  Width := req.Width
  Height := req.Height

/-- `ImageHandler`. -/
structure ImageHandler where
  novelaiService : NovelAIService
  imageService : ImageService

/-- What one run of the generate handler leaves behind: the storage, the
response, and the body posted to the provider, if any. -/
structure HandlerResult where
  storage : Storage
  response : HandlerResponse
  posted : Option String

/-- `ImageHandler.GenerateImage`. The argument `bound` is the result of
`c.ShouldBindJSON(&req)`, `elapsedMs` the value of
`time.Since(startTime).Milliseconds()`. Reading `generation.ID` of a `nil`
record is a nil-pointer panic. -/
def ImageHandler.GenerateImage (h : ImageHandler) (env : Provider) (senv : StorageEnv)
    (elapsedMs : Int) (st : Storage) (bound : Except String GenerateImageRequest) :
    Run HandlerResult :=
  match bound with
  | Except.error e => Run.done ⟨st, HandlerResponse.badRequest e, none⟩
  | Except.ok req0 =>
    let req := withDefaults req0
    let novelaiReq := novelaiReqOf req
    match h.novelaiService.GenerateImage env novelaiReq with
    | Run.panic msg => Run.panic msg
    | Run.done r =>
      match r.err with
      | some err =>
        match h.imageService.SaveFailedGeneration senv st req.Prompt req.NegativePrompt
            req.Seed req.Steps req.Width req.Height req.StylePresetID r.payload err with
        | (_, Except.error _) => Run.panic "nil pointer dereference"
        | (st1, Except.ok generation) =>
          Run.done ⟨st1, HandlerResponse.generateFailed err generation.ID, r.posted⟩
      | none =>
        let generationTime := elapsedMs
        match h.imageService.SaveImageGeneration senv st req.Prompt req.NegativePrompt
            r.req.Seed req.Steps req.Width req.Height req.StylePresetID r.payload
            (r.imageData.getD []) with
        | (st1, Except.error e) => Run.done ⟨st1, HandlerResponse.saveFailed e, r.posted⟩
        | (st1, Except.ok generation) =>
          let st2 := h.imageService.UpdateGenerationTime senv st1 generation.ID generationTime
          let imageURL := "/files/" ++ generation.FilePath
          Run.done ⟨st2,
            HandlerResponse.ok ⟨generation.ID, imageURL, generation.Seed,
              "Image generated successfully"⟩,
            r.posted⟩

/-! ## Concrete inputs used in the worked examples -/

/-- Midnight UTC of January 1, 2025, in nanoseconds since the zero time. -/
def t2025 : Time := 63871286400000000000

/-- A remote verifier that accepts every token. -/
def acceptAll : String → String → String → Bool := fun _ _ _ => true

/-- A remote verifier that rejects every token. -/
def rejectAll : String → String → String → Bool := fun _ _ _ => false

/-- The scenario of three requests of one client `ip` on a fresh ledger: at
`t0` without a token, at `t0 + 1s` with the token `tok`, at `t0 + 2s` again
with `tok`; none carries a privilege credential. -/
def scenario (siteverify : String → String → String → Bool) (secret key ip tok : String)
    (t0 : Time) : MiddlewareResult × MiddlewareResult × MiddlewareResult :=
  let r1 := RateLimitMiddleware siteverify secret (NewRateLimitService key)
    (Clock.instant t0) ⟨ip, "", "", ""⟩
  let r2 := RateLimitMiddleware siteverify secret r1.service
    (Clock.instant (t0 + 1 * Second)) ⟨ip, "", tok, ""⟩
  let r3 := RateLimitMiddleware siteverify secret r2.service
    (Clock.instant (t0 + 2 * Second)) ⟨ip, "", tok, ""⟩
  (r1, r2, r3)

/-! ## Sequences of requests and of ledger calls -/

/-- One processed request: the answer function of the remote verifier at that
moment, the clock readings of the ledger calls, and the request. -/
structure Event where
  siteverify : String → String → String → Bool
  clk : Clock
  req : Request

/-- The ledger after the requests of the list have gone through the
middleware one after the other. -/
def runRequests (secret : String) : RateLimitService → List Event → RateLimitService
  | s, [] => s
  | s, e :: es =>
    runRequests secret (RateLimitMiddleware e.siteverify secret s e.clk e.req).service es

/-- A call of one of the mutating methods of the ledger. -/
inductive LedgerOp where
  | updateGlobal (now : Time)
  | updateIP (ip : String) (now : Time)
  | updateTurnstile (ip : String) (now : Time)
  | cleanup (now : Time)
deriving DecidableEq, Repr

/-- The effect of one call. -/
def LedgerOp.apply (s : RateLimitService) : LedgerOp → RateLimitService
  | LedgerOp.updateGlobal now => UpdateGlobalRequest s now
  | LedgerOp.updateIP ip now => UpdateIPRequest s ip now
  | LedgerOp.updateTurnstile ip now => UpdateTurnstileVerification s ip now
  | LedgerOp.cleanup now => CleanupOldRecords s now

/-- The ledger after a sequence of calls. -/
def applyOps (s : RateLimitService) (ops : List LedgerOp) : RateLimitService :=
  ops.foldl LedgerOp.apply s

/-- The call records a verification of the client `ip`. -/
def LedgerOp.verifies (ip : String) : LedgerOp → Bool
  | LedgerOp.updateTurnstile k _ => decide (k = ip)
  | _ => false

/-- The client `ip` has a record whose last-request time is `lo` or later. -/
def LastRequestFrom (s : RateLimitService) (ip : String) (lo : Time) : Prop :=
  ∃ r, s.ipRecords ip = some r ∧ lo ≤ r.LastRequest

/-- The client `ip` has no record, or a record that was never verified. -/
def NeverVerified (s : RateLimitService) (ip : String) : Prop :=
  ∀ r, s.ipRecords ip = some r → r.TurnstileVerified = 0

/-- The client `ip` has a record whose last-verified time is `t`. -/
def VerifiedAt (s : RateLimitService) (ip : String) (t : Time) : Prop :=
  ∃ r, s.ipRecords ip = some r ∧ r.TurnstileVerified = t

/-- The client `ip` has no record, or a record that was never verified, or a
record whose last-verified time is `t`. -/
def VerifiedAtOrNever (s : RateLimitService) (ip : String) (t : Time) : Prop :=
  ∀ r, s.ipRecords ip = some r → r.TurnstileVerified = 0 ∨ r.TurnstileVerified = t

/-- Three requests for the worked example of the per-client window: client
1.2.3.4 at the start of 2025, client 5.6.7.8 eleven seconds later, client
1.2.3.4 again after twenty-two seconds. -/
def exampleFirst : Event := ⟨acceptAll, Clock.instant t2025, ⟨"1.2.3.4", "", "tok", ""⟩⟩

/-- The request of the other client. -/
def exampleOther : Event :=
  ⟨acceptAll, Clock.instant (t2025 + 11 * Second), ⟨"5.6.7.8", "", "tok", ""⟩⟩

/-- The second request of the first client. -/
def exampleAgain : Event :=
  ⟨acceptAll, Clock.instant (t2025 + 22 * Second), ⟨"1.2.3.4", "", "tok", ""⟩⟩

/-- A toy serializer for the worked examples: it renders only the seed. -/
def seedOnly (p : NovelAIPayload) : Except String String :=
  Except.ok ("seed=" ++ toString p.Parameters.Seed)

/-- A provider that answers 200 with an archive holding `image_0.png`, whose
three bytes are 1, 2, 3; the random source yields 12345. -/
def providerOk : Provider where
  rnd := 12345
  marshal := seedOnly
  newRequest := fun _ => Except.ok ()
  send := fun _ _ => Except.ok ⟨200, [80, 75], none⟩
  zipNewReader := fun _ => Except.ok [⟨bytesOf "image_0.png", Except.ok (Except.ok [1, 2, 3])⟩]

/-- A provider that answers 500 with the body "no". -/
def provider500 : Provider where
  rnd := 12345
  marshal := seedOnly
  newRequest := fun _ => Except.ok ()
  send := fun _ _ => Except.ok ⟨500, bytesOf "no", none⟩
  zipNewReader := fun _ => Except.error "zip: not a valid zip file"

/-- A storage environment in which every call succeeds, at midnight of
January 1, 2025. -/
def storageOk : StorageEnv where
  timestamp := "20250101_000000"
  yearMonth := "2025/01"
  mkdirErr := none
  writeErr := none
  createErr := none
  removeErr := none
  updateErr := none

/-- An empty image directory and an empty table. -/
def emptyStorage : Storage where
  files := fun _ => none
  rows := []
  nextID := 1

/-- The handler of the worked examples. -/
def exampleHandler : ImageHandler := ⟨⟨"api-key"⟩, ⟨"./data/images"⟩⟩

/-- A request for a random seed. -/
def randomSeedRequest : GenerateImageRequest where
  Prompt := "a cat"
  NegativePrompt := "blurry"
  Seed := -1
  Steps := 28
  Width := 832
  Height := 1216
  StylePresetID := none

/-- An archive member named "a". -/
def memberA : ZipFile := ⟨bytesOf "a", Except.ok (Except.ok [9])⟩

/-- An archive member named "image_0.png". -/
def memberPng : ZipFile := ⟨bytesOf "image_0.png", Except.ok (Except.ok [1, 2, 3])⟩

/-- A `zip.NewReader` that reads an archive in which the member "a" comes
before the member "image_0.png". -/
def readShortNameFirst : Bytes → Except String (List ZipFile) :=
  fun _ => Except.ok [memberA, memberPng]

/-- The result of the worked example in which a request for a random seed
succeeds. -/
def randomSeedResult : HandlerResult where
  storage :=
    { files := fun k =>
        if k = "data/images/2025/01/novelai_20250101_000000_-1.png" then some [1, 2, 3]
        else none
      rows :=
        [{ ID := 1
           Prompt := "a cat"
           NegativePrompt := "blurry"
           Seed := -1
           Steps := 28
           Width := 832
           Height := 1216
           StylePresetID := none
           OriginalPayload := "seed=12345"
           FilePath := "2025/01/novelai_20250101_000000_-1.png"
           FileName := "novelai_20250101_000000_-1.png"
           FileSize := 3
           Status := "success"
           ErrorMessage := ""
           GenerationTime := 1500 }]
      nextID := 2 }
  response :=
    HandlerResponse.ok ⟨1, "/files/2025/01/novelai_20250101_000000_-1.png", -1,
      "Image generated successfully"⟩
  posted := some "seed=12345"

/-- The result of `GenerateImage` in the worked example in which the provider
answers 500. -/
def failedResult : GenerateResult where
  imageData := none
  payload := ""
  err := some "API error 500: no"
  req := novelaiReqOf randomSeedRequest
  posted := some "seed=12345"

/-! ## Ledger states with the configured intervals -/

/-- The ledger with the configuration that `NewRateLimitService` sets and
arbitrary values of the two mutable fields. -/
def ledgerOf (key : String) (globalLastRequest : Time) (ipRecords : String → Option IPRecord) :
    RateLimitService :=
  { NewRateLimitService key with globalLastRequest := globalLastRequest, ipRecords := ipRecords }

/-- A ledger for the worked example of the cleanup: client 1.2.3.4 was last
seen and verified at the start of 2025, client 5.6.7.8 was last seen then and
never verified. -/
def exampleLedger : RateLimitService :=
  ledgerOf "" t2025 fun k =>
    if k = "1.2.3.4" then some ⟨t2025, t2025⟩
    else if k = "5.6.7.8" then some ⟨t2025, 0⟩
    else none

/-! ## Names used by the recorder -/

/-- The file name `SaveImageGeneration` derives from the timestamp and the
seed: `fmt.Sprintf("novelai_%s_%d.png", timestamp, seed)`. -/
def imageFileName (env : StorageEnv) (seed : Int) : String :=
  "novelai_" ++ env.timestamp ++ "_" ++ toString seed ++ ".png"

/-- The path `SaveImageGeneration` writes to (`fullPath`). -/
def imageFullPath (s : ImageService) (env : StorageEnv) (seed : Int) : String :=
  filepathJoin (filepathJoin s.imagesDir env.yearMonth) (imageFileName env seed)

/-- `ImageService.GetImageFilePath`. -/
def ImageService.GetImageFilePath (s : ImageService) (generation : ImageGeneration) : String :=
  filepathJoin s.imagesDir generation.FilePath

/-- Every stored row has a primary key below the next key the table hands
out. -/
def Storage.KeysBelowNext (st : Storage) : Prop := ∀ g ∈ st.rows, g.ID < st.nextID

/-- A storage environment in which only the insert fails. -/
def insertFails : StorageEnv := { storageOk with createErr := some "database is locked" }

/-- A storage in which the path that a call at midnight of January 1, 2025
with seed 7 writes to is already taken by a file with the bytes 7, 7. -/
def occupiedStorage : Storage where
  files := fun k =>
    if k = "data/images/2025/01/novelai_20250101_000000_7.png" then some [7, 7] else none
  rows := []
  nextID := 1

/-- A storage environment in which only the file write fails. -/
def writeFails : StorageEnv := { storageOk with writeErr := some "disk full" }

/-- The result of the worked example in which generation succeeds and the file
write fails. -/
def writeFailsResult : HandlerResult where
  storage := emptyStorage
  response := HandlerResponse.saveFailed "failed to save image file: disk full"
  posted := some "seed=12345"

/-! ## Interleaved requests

Every method of `RateLimitService` holds the mutex for its whole body, clock
reading included, so between two requests the unit of interleaving is one
method call. A request inside `RateLimitMiddleware` is therefore a small
machine whose steps are the calls it makes. -/

/-- Where a request stands inside `RateLimitMiddleware`: the call it makes
next, or the decision it ended with. -/
inductive Stage where
  | checkPrivilege
  | checkGlobal
  | checkIP
  | checkTurnstile
  | verify
  | updateTurnstile
  | updateGlobal
  | updateIP
  | finished (d : Decision)
deriving DecidableEq, Repr

/-- A request in flight. -/
structure Thread where
  siteverify : String → String → String → Bool
  req : Request
  stage : Stage

/-- One call of a request in flight, made at the clock reading `now`: the
ledger after the call and the request with its next stage, following the
control flow of `RateLimitMiddleware`. -/
def Thread.step (secret : String) (s : RateLimitService) (now : Time) (th : Thread) :
    RateLimitService × Thread :=
  match th.stage with
  | Stage.checkPrivilege =>
    if CheckPrivilegeKey s th.req.privilegeKey then (s, { th with stage := Stage.updateGlobal })
    else (s, { th with stage := Stage.checkGlobal })
  | Stage.checkGlobal =>
    if !CheckGlobalRateLimit s now then
      (s, { th with stage := Stage.finished (Decision.abort 429 "GLOBAL_RATE_LIMIT") })
    else (s, { th with stage := Stage.checkIP })
  | Stage.checkIP =>
    if !CheckIPRateLimit s th.req.clientIP now then
      (s, { th with stage := Stage.finished (Decision.abort 429 "IP_RATE_LIMIT") })
    else (s, { th with stage := Stage.checkTurnstile })
  | Stage.checkTurnstile =>
    if CheckTurnstileRequired s th.req.clientIP now then
      if turnstileTokenOf th.req ≠ "" then (s, { th with stage := Stage.verify })
      else (s, { th with stage := Stage.finished (Decision.abort 401 "TURNSTILE_REQUIRED") })
    else (s, { th with stage := Stage.updateGlobal })
  | Stage.verify =>
    if verifyTurnstileToken th.siteverify (turnstileTokenOf th.req) th.req.clientIP secret then
      (s, { th with stage := Stage.updateTurnstile })
    else (s, { th with stage := Stage.finished (Decision.abort 401 "INVALID_TURNSTILE") })
  | Stage.updateTurnstile =>
    (UpdateTurnstileVerification s th.req.clientIP now, { th with stage := Stage.updateGlobal })
  | Stage.updateGlobal =>
    (UpdateGlobalRequest s now, { th with stage := Stage.updateIP })
  | Stage.updateIP =>
    (UpdateIPRequest s th.req.clientIP now, { th with stage := Stage.finished Decision.next })
  | Stage.finished _ => (s, th)

/-- The reading of `clk` that belongs to the call of a stage (stages that do
not read the clock get the first reading). -/
def Clock.reading (clk : Clock) : Stage → Time
  | Stage.checkIP => clk.checkIP
  | Stage.checkTurnstile => clk.checkTurnstile
  | Stage.updateTurnstile => clk.updateTurnstile
  | Stage.updateGlobal => clk.updateGlobal
  | Stage.updateIP => clk.updateIP
  | _ => clk.checkGlobal

/-- A request that runs `n` of its calls without any other request in
between, with the readings of `clk`. -/
def Thread.runSolo (secret : String) (clk : Clock) :
    Nat → RateLimitService → Thread → RateLimitService × Thread
  | 0, s, th => (s, th)
  | n + 1, s, th =>
    Thread.runSolo secret clk n (th.step secret s (clk.reading th.stage)).1
      (th.step secret s (clk.reading th.stage)).2

/-- Requests in flight that take their calls in the order of a schedule: each
entry names the request that makes its next call and the clock reading of
that call. -/
def runSchedule (secret : String) :
    RateLimitService → List Thread → List (Nat × Time) → RateLimitService × List Thread
  | s, ths, [] => (s, ths)
  | s, ths, (i, now) :: rest =>
    match ths.get? i with
    | none => runSchedule secret s ths rest
    | some th =>
      runSchedule secret (th.step secret s now).1 (ths.set i (th.step secret s now).2) rest

/-- Two requests of client 1.2.3.4, each with a token the verifier accepts. -/
def racingThreads : List Thread :=
  [⟨acceptAll, ⟨"1.2.3.4", "", "tok", ""⟩, Stage.checkPrivilege⟩,
   ⟨acceptAll, ⟨"1.2.3.4", "", "tok", ""⟩, Stage.checkPrivilege⟩]

/-- The schedule in which the two requests alternate call by call, one
millisecond apart, from the start of 2025: both make their three checks
before either records anything. -/
def checksFirstSchedule : List (Nat × Time) :=
  (List.range 16).map fun k => (k % 2, t2025 + (k : Int) * 1000000)

/-- The schedule in which the first request makes all its calls before the
second starts, with the same clock readings. -/
def oneAfterTheOtherSchedule : List (Nat × Time) :=
  (List.range 16).map fun k => (k / 8, t2025 + (k : Int) * 1000000)

/-! ## The status invariant -/

/-- The part of the status invariant that a record carries in its own fields:
the status is success or failed; a success record has a non-empty file name, a
non-empty file path that is the join of a directory with the file name, and a
file size that is not negative; a failed record has non-empty error text, an
empty file path, an empty file name and file size 0. -/
def RecordShape (g : ImageGeneration) : Prop :=
  (g.Status = "success" ∨ g.Status = "failed") ∧
  (g.Status = "success" →
    g.FileName ≠ "" ∧ g.FilePath ≠ "" ∧ 0 ≤ g.FileSize ∧
    ∃ yearMonth : String, g.FilePath = filepathJoin yearMonth g.FileName) ∧
  (g.Status = "failed" →
    g.ErrorMessage ≠ "" ∧ g.FilePath = "" ∧ g.FileName = "" ∧ g.FileSize = 0)

/-- The result of a second call in the worked example: after the call that
left `randomSeedResult`, the same request arrives in the same second, the
provider succeeds again and the insert fails, so the file written under the
same name is removed. -/
def lostFileResult : HandlerResult where
  storage :=
    { files := fun k =>
        if k = "data/images/2025/01/novelai_20250101_000000_-1.png" then none
        else if k = "data/images/2025/01/novelai_20250101_000000_-1.png" then some [1, 2, 3]
        else randomSeedResult.storage.files k
      rows := randomSeedResult.storage.rows
      nextID := 2 }
  response := HandlerResponse.saveFailed "failed to save to database: database is locked"
  posted := some "seed=12345"

/-! # Theorems -/

/-! ## Admission controller: order of the gates -/

/-- C1: for a request whose credential is not a valid privilege key the gates are
taken in the fixed order global limit, per-client limit, verification: the
decision is GLOBAL_RATE_LIMIT when the global check fails, else IP_RATE_LIMIT
when the per-client check fails, else, when verification is required,
TURNSTILE_REQUIRED for an empty token and INVALID_TURNSTILE for a token the
verifier rejects, and the request is let through in every remaining case. The
verifier is called (once) exactly when both checks passed, verification is
required and a token is present. -/
theorem middleware_gate_order (siteverify : String → String → String → Bool)
    (secret : String) (s : RateLimitService) (clk : Clock) (req : Request)
    (hpriv : CheckPrivilegeKey s req.privilegeKey = false) :
    (CheckGlobalRateLimit s clk.checkGlobal = false →
      (RateLimitMiddleware siteverify secret s clk req).decision
        = Decision.abort 429 "GLOBAL_RATE_LIMIT") ∧
    (CheckGlobalRateLimit s clk.checkGlobal = true →
      CheckIPRateLimit s req.clientIP clk.checkIP = false →
      (RateLimitMiddleware siteverify secret s clk req).decision
        = Decision.abort 429 "IP_RATE_LIMIT") ∧
    (CheckGlobalRateLimit s clk.checkGlobal = true →
      CheckIPRateLimit s req.clientIP clk.checkIP = true →
      CheckTurnstileRequired s req.clientIP clk.checkTurnstile = true →
      turnstileTokenOf req = "" →
      (RateLimitMiddleware siteverify secret s clk req).decision
        = Decision.abort 401 "TURNSTILE_REQUIRED") ∧
    (CheckGlobalRateLimit s clk.checkGlobal = true →
      CheckIPRateLimit s req.clientIP clk.checkIP = true →
      CheckTurnstileRequired s req.clientIP clk.checkTurnstile = true →
      turnstileTokenOf req ≠ "" →
      verifyTurnstileToken siteverify (turnstileTokenOf req) req.clientIP secret = false →
      (RateLimitMiddleware siteverify secret s clk req).decision
        = Decision.abort 401 "INVALID_TURNSTILE") ∧
    (CheckGlobalRateLimit s clk.checkGlobal = true →
      CheckIPRateLimit s req.clientIP clk.checkIP = true →
      (CheckTurnstileRequired s req.clientIP clk.checkTurnstile = false ∨
        (turnstileTokenOf req ≠ "" ∧
          verifyTurnstileToken siteverify (turnstileTokenOf req) req.clientIP secret = true)) →
      (RateLimitMiddleware siteverify secret s clk req).decision = Decision.next) ∧
    (RateLimitMiddleware siteverify secret s clk req).verifyCalls
      = (if CheckGlobalRateLimit s clk.checkGlobal = true ∧
            CheckIPRateLimit s req.clientIP clk.checkIP = true ∧
            CheckTurnstileRequired s req.clientIP clk.checkTurnstile = true ∧
            turnstileTokenOf req ≠ ""
         then [⟨turnstileTokenOf req, req.clientIP, secret⟩] else []) := by
  unfold RateLimitMiddleware
  simp only [hpriv]
  cases hg : CheckGlobalRateLimit s clk.checkGlobal <;>
  cases hi : CheckIPRateLimit s req.clientIP clk.checkIP <;>
  cases ht : CheckTurnstileRequired s req.clientIP clk.checkTurnstile <;>
  by_cases htok : turnstileTokenOf req = "" <;>
  cases hv : verifyTurnstileToken siteverify (turnstileTokenOf req) req.clientIP secret <;>
  simp [htok, hv]

/-- Witness of `middleware_gate_order`: on a fresh ledger a request with a token that
the verifier rejects is denied with INVALID_TURNSTILE. -/
theorem middleware_gate_order_witness :
    CheckPrivilegeKey (NewRateLimitService "") "" = false ∧
    (RateLimitMiddleware rejectAll "secret" (NewRateLimitService "") (Clock.instant t2025)
      ⟨"1.2.3.4", "", "tok", ""⟩).decision = Decision.abort 401 "INVALID_TURNSTILE" :=
  ⟨by decide,
    (middleware_gate_order rejectAll "secret" (NewRateLimitService "") (Clock.instant t2025)
      ⟨"1.2.3.4", "", "tok", ""⟩ (by decide)).2.2.2.1
      (by decide) (by decide) (by decide) (by decide) (by decide)⟩

/-! ## Arithmetic of `Time.Sub` -/

/-- For a threshold inside the range of `Duration`, clamping does not change
the comparison of `t.Sub(u)` with it. -/
theorem Time.sub_ge_iff (t u : Time) (d : Duration) (h1 : minDuration < d)
    (h2 : d ≤ maxDuration) : Time.Sub t u ≥ d ↔ t - u ≥ d := by
  unfold Time.Sub
  unfold minDuration at h1 ⊢
  unfold maxDuration at h2 ⊢
  delta Time Duration at *
  split_ifs <;> omega

/-- The comparison with ten seconds. -/
theorem Time.sub_ge_10s (t u : Time) : Time.Sub t u ≥ 10 * Second ↔ t - u ≥ 10 * Second :=
  Time.sub_ge_iff t u _ (by decide) (by decide)

/-- The comparison with thirty seconds. -/
theorem Time.sub_ge_30s (t u : Time) : Time.Sub t u ≥ 30 * Second ↔ t - u ≥ 30 * Second :=
  Time.sub_ge_iff t u _ (by decide) (by decide)

/-- The comparison with sixty seconds. -/
theorem Time.sub_ge_60s (t u : Time) :
    Time.Sub t u ≥ 1 * 60 * Second ↔ t - u ≥ 1 * 60 * Second :=
  Time.sub_ge_iff t u _ (by decide) (by decide)

/-! ## The three-request scenario -/

/-- C2, as stated, fails: with the clock at January 1, 2025 and a verifier
that accepts the token, the third request of the scenario is not denied with
IP_RATE_LIMIT (the first two steps go as stated). -/
theorem scenario_third_not_ip_limit :
    ¬ ((scenario acceptAll "secret" "" "1.2.3.4" "tok" t2025).1.decision
          = Decision.abort 401 "TURNSTILE_REQUIRED" ∧
       (scenario acceptAll "secret" "" "1.2.3.4" "tok" t2025).2.1.decision = Decision.next ∧
       (scenario acceptAll "secret" "" "1.2.3.4" "tok" t2025).2.2.decision
          = Decision.abort 429 "IP_RATE_LIMIT") := by
  decide

/-- `CheckPrivilegeKey` accepts a credential exactly when the configured key is
non-empty and equal to it. -/
theorem CheckPrivilegeKey_iff (s : RateLimitService) (key : String) :
    CheckPrivilegeKey s key = true ↔ s.privilegeKey ≠ "" ∧ key = s.privilegeKey := by
  simp [CheckPrivilegeKey]

/-- The empty credential is never privileged. -/
theorem CheckPrivilegeKey_empty (s : RateLimitService) : CheckPrivilegeKey s "" = false := by
  cases h : CheckPrivilegeKey s ""
  · rfl
  · obtain ⟨h1, h2⟩ := (CheckPrivilegeKey_iff s "").1 h
    exact absurd h2.symm h1

/-- C2, amended: on a fresh ledger, with a clock that is at least ten seconds
past the zero time and no privilege credential, the request at `t0` without a
token is denied with TURNSTILE_REQUIRED, the request at `t0 + 1s` with a token the
verifier accepts is let through and records the verification, and the request
at `t0 + 2s` is denied with GLOBAL_RATE_LIMIT: the global gate comes first
and its ten seconds have not passed (the per-client check would fail too). -/
theorem scenario_outcomes (siteverify : String → String → String → Bool)
    (secret key ip tok : String) (t0 : Time) (htok : tok ≠ "")
    (hver : verifyTurnstileToken siteverify tok ip secret = true)
    (ht0 : 10 * Second ≤ t0) :
    (scenario siteverify secret key ip tok t0).1.decision
      = Decision.abort 401 "TURNSTILE_REQUIRED" ∧
    (scenario siteverify secret key ip tok t0).2.1.decision = Decision.next ∧
    (scenario siteverify secret key ip tok t0).2.1.service.ipRecords ip
      = some ⟨t0 + 1 * Second, t0 + 1 * Second⟩ ∧
    (scenario siteverify secret key ip tok t0).2.2.decision
      = Decision.abort 429 "GLOBAL_RATE_LIMIT" ∧
    CheckIPRateLimit (scenario siteverify secret key ip tok t0).2.1.service ip
      (t0 + 2 * Second) = false := by
  have hg1 : CheckGlobalRateLimit (NewRateLimitService key) t0 = true := by
    simp only [CheckGlobalRateLimit, NewRateLimitService, decide_eq_true_eq]
    rw [Time.sub_ge_10s]
    simp only [Second] at *
    delta Time Duration at *
    omega
  have hg2 : CheckGlobalRateLimit (NewRateLimitService key) (t0 + 1 * Second) = true := by
    simp only [CheckGlobalRateLimit, NewRateLimitService, decide_eq_true_eq]
    rw [Time.sub_ge_10s]
    simp only [Second] at *
    delta Time Duration at *
    omega
  have r1 : RateLimitMiddleware siteverify secret (NewRateLimitService key)
      (Clock.instant t0) ⟨ip, "", "", ""⟩
      = ⟨NewRateLimitService key, Decision.abort 401 "TURNSTILE_REQUIRED", []⟩ := by
    unfold RateLimitMiddleware
    simp only [CheckPrivilegeKey_empty, Clock.instant, hg1]
    simp [CheckIPRateLimit, CheckTurnstileRequired, NewRateLimitService, turnstileTokenOf]
  have r2 : RateLimitMiddleware siteverify secret (NewRateLimitService key)
      (Clock.instant (t0 + 1 * Second)) ⟨ip, "", tok, ""⟩
      = ⟨UpdateIPRequest (UpdateGlobalRequest (UpdateTurnstileVerification
          (NewRateLimitService key) ip (t0 + 1 * Second)) (t0 + 1 * Second)) ip
          (t0 + 1 * Second), Decision.next, [⟨tok, ip, secret⟩]⟩ := by
    unfold RateLimitMiddleware
    simp only [CheckPrivilegeKey_empty, Clock.instant, hg2]
    simp [CheckIPRateLimit, CheckTurnstileRequired, NewRateLimitService, turnstileTokenOf,
      htok, hver]
  simp only [scenario, r1, r2]
  refine ⟨trivial, trivial, ?_, ?_, ?_⟩
  · simp [UpdateIPRequest, UpdateGlobalRequest, UpdateTurnstileVerification, recordOrNew,
      NewRateLimitService]
  · have hg3 : CheckGlobalRateLimit (UpdateIPRequest (UpdateGlobalRequest
        (UpdateTurnstileVerification (NewRateLimitService key) ip (t0 + 1 * Second))
        (t0 + 1 * Second)) ip (t0 + 1 * Second)) (t0 + 2 * Second) = false := by
      simp only [CheckGlobalRateLimit, UpdateIPRequest, UpdateGlobalRequest,
        UpdateTurnstileVerification, NewRateLimitService, decide_eq_false_iff_not]
      rw [Time.sub_ge_10s]
      simp only [Second] at *
      delta Time Duration at *
      omega
    unfold RateLimitMiddleware
    simp only [CheckPrivilegeKey_empty, Clock.instant, hg3]
    simp
  · simp only [CheckIPRateLimit, UpdateIPRequest, UpdateGlobalRequest,
      UpdateTurnstileVerification, NewRateLimitService, if_true, decide_eq_false_iff_not]
    rw [Time.sub_ge_30s]
    simp only [Second] at *
    delta Time Duration at *
    omega

/-- Witness of `scenario_outcomes` at January 1, 2025. -/
theorem scenario_outcomes_witness :
    ("tok" ≠ "" ∧ verifyTurnstileToken acceptAll "tok" "1.2.3.4" "secret" = true ∧
      10 * Second ≤ t2025) ∧
    (scenario acceptAll "secret" "" "1.2.3.4" "tok" t2025).2.2.decision
      = Decision.abort 429 "GLOBAL_RATE_LIMIT" :=
  ⟨⟨by decide, by decide, by decide⟩,
    (scenario_outcomes acceptAll "secret" "" "1.2.3.4" "tok" t2025
      (by decide) (by decide) (by decide)).2.2.2.1⟩

/-! ## Privileged bypass -/

/-- C3: a request whose credential equals the configured, non-empty privilege
key is let through from every ledger state; afterwards the global
last-request time and the client's last-request time are the readings of the
two updates, the client's last-verified time is what it was (the zero time if
the client had no record), every other client's record is untouched, the
verification requirement of the client is unchanged and the verifier was not
called. A credential is accepted only when the configured key is non-empty and
equal to it, so the empty credential is never privileged. -/
theorem privileged_bypass (siteverify : String → String → String → Bool)
    (secret : String) (s : RateLimitService) (clk : Clock) (req : Request) :
    (s.privilegeKey ≠ "" → req.privilegeKey = s.privilegeKey →
      (RateLimitMiddleware siteverify secret s clk req).decision = Decision.next ∧
      (RateLimitMiddleware siteverify secret s clk req).service.globalLastRequest
        = clk.updateGlobal ∧
      (RateLimitMiddleware siteverify secret s clk req).service.ipRecords req.clientIP
        = some ⟨clk.updateIP, (recordOrNew s req.clientIP).TurnstileVerified⟩ ∧
      (∀ k, k ≠ req.clientIP →
        (RateLimitMiddleware siteverify secret s clk req).service.ipRecords k
          = s.ipRecords k) ∧
      (∀ now, CheckTurnstileRequired (RateLimitMiddleware siteverify secret s clk req).service
          req.clientIP now = CheckTurnstileRequired s req.clientIP now) ∧
      (RateLimitMiddleware siteverify secret s clk req).verifyCalls = []) ∧
    (∀ key, CheckPrivilegeKey s key = true ↔ s.privilegeKey ≠ "" ∧ key = s.privilegeKey) ∧
    CheckPrivilegeKey s "" = false := by
  refine ⟨?_, CheckPrivilegeKey_iff s, CheckPrivilegeKey_empty s⟩
  intro hne heq
  have hp : CheckPrivilegeKey s req.privilegeKey = true :=
    (CheckPrivilegeKey_iff s req.privilegeKey).2 ⟨hne, heq⟩
  have key : RateLimitMiddleware siteverify secret s clk req
      = ⟨UpdateIPRequest (UpdateGlobalRequest s clk.updateGlobal) req.clientIP clk.updateIP,
          Decision.next, []⟩ := by
    unfold RateLimitMiddleware
    simp only [hp, if_true]
  rw [key]
  refine ⟨rfl, rfl, ?_, ?_, ?_, rfl⟩
  · simp [UpdateIPRequest, UpdateGlobalRequest, recordOrNew]
  · intro k hk
    simp [UpdateIPRequest, UpdateGlobalRequest, hk]
  · intro now
    simp only [CheckTurnstileRequired, UpdateIPRequest, UpdateGlobalRequest, recordOrNew,
      if_true]
    cases h : s.ipRecords req.clientIP <;> simp [Time.IsZero]

/-- Witness of `privileged_bypass`: with the key "k" configured, a request
carrying "k" is let through one second after an admitted request. -/
theorem privileged_bypass_witness :
    (UpdateGlobalRequest (NewRateLimitService "k") t2025).privilegeKey ≠ "" ∧
    (RateLimitMiddleware rejectAll "secret" (UpdateGlobalRequest (NewRateLimitService "k") t2025)
      (Clock.instant (t2025 + Second)) ⟨"1.2.3.4", "k", "", ""⟩).decision = Decision.next :=
  ⟨by decide,
    ((privileged_bypass rejectAll "secret" (UpdateGlobalRequest (NewRateLimitService "k") t2025)
      (Clock.instant (t2025 + Second)) ⟨"1.2.3.4", "k", "", ""⟩).1
      (by decide) (by decide)).1⟩

/-! ## Denials leave the ledger alone -/

/-- C4: when the middleware denies a request, the code is one of
GLOBAL_RATE_LIMIT, IP_RATE_LIMIT, TURNSTILE_REQUIRED and INVALID_TURNSTILE, and
the ledger after the request is the ledger before it. -/
theorem deny_keeps_ledger (siteverify : String → String → String → Bool)
    (secret : String) (s : RateLimitService) (clk : Clock) (req : Request)
    (status : Nat) (code : String)
    (h : (RateLimitMiddleware siteverify secret s clk req).decision
      = Decision.abort status code) :
    (RateLimitMiddleware siteverify secret s clk req).service = s ∧
    code ∈ ["GLOBAL_RATE_LIMIT", "IP_RATE_LIMIT", "TURNSTILE_REQUIRED", "INVALID_TURNSTILE"] := by
  unfold RateLimitMiddleware at h ⊢
  cases hp : CheckPrivilegeKey s req.privilegeKey <;>
  cases hg : CheckGlobalRateLimit s clk.checkGlobal <;>
  cases hi : CheckIPRateLimit s req.clientIP clk.checkIP <;>
  cases ht : CheckTurnstileRequired s req.clientIP clk.checkTurnstile <;>
  by_cases htok : turnstileTokenOf req = "" <;>
  cases hv : verifyTurnstileToken siteverify (turnstileTokenOf req) req.clientIP secret <;>
  simp [hp, hg, hi, ht, htok, hv] at h ⊢ <;> simp [← h.2]

/-- Witness of `deny_keeps_ledger`: a first request without a token is denied and
the fresh ledger stays as it was. -/
theorem deny_keeps_ledger_witness :
    (RateLimitMiddleware acceptAll "secret" (NewRateLimitService "") (Clock.instant t2025)
      ⟨"1.2.3.4", "", "", ""⟩).decision = Decision.abort 401 "TURNSTILE_REQUIRED" ∧
    (RateLimitMiddleware acceptAll "secret" (NewRateLimitService "") (Clock.instant t2025)
      ⟨"1.2.3.4", "", "", ""⟩).service = NewRateLimitService "" :=
  ⟨by decide,
    (deny_keeps_ledger acceptAll "secret" (NewRateLimitService "") (Clock.instant t2025)
      ⟨"1.2.3.4", "", "", ""⟩ 401 "TURNSTILE_REQUIRED" (by decide)).1⟩

/-! ## The per-client window -/

/-- The three shapes of a middleware result: let through without a verifier
call, let through after a successful verification, or denied with the ledger
as it was. -/
theorem RateLimitMiddleware_shape (siteverify : String → String → String → Bool)
    (secret : String) (s : RateLimitService) (clk : Clock) (req : Request) :
    RateLimitMiddleware siteverify secret s clk req
      = ⟨UpdateIPRequest (UpdateGlobalRequest s clk.updateGlobal) req.clientIP clk.updateIP,
          Decision.next, []⟩ ∨
    RateLimitMiddleware siteverify secret s clk req
      = ⟨UpdateIPRequest (UpdateGlobalRequest
            (UpdateTurnstileVerification s req.clientIP clk.updateTurnstile) clk.updateGlobal)
            req.clientIP clk.updateIP,
          Decision.next, [⟨turnstileTokenOf req, req.clientIP, secret⟩]⟩ ∨
    ((RateLimitMiddleware siteverify secret s clk req).service = s ∧
      ∃ status code, (RateLimitMiddleware siteverify secret s clk req).decision
        = Decision.abort status code) := by
  unfold RateLimitMiddleware
  cases hp : CheckPrivilegeKey s req.privilegeKey <;>
  cases hg : CheckGlobalRateLimit s clk.checkGlobal <;>
  cases hi : CheckIPRateLimit s req.clientIP clk.checkIP <;>
  cases ht : CheckTurnstileRequired s req.clientIP clk.checkTurnstile <;>
  by_cases htok : turnstileTokenOf req = "" <;>
  cases hv : verifyTurnstileToken siteverify (turnstileTokenOf req) req.clientIP secret <;>
  simp [hp, hg, hi, ht, htok, hv]

/-- The middleware never changes the configuration of the ledger. -/
theorem RateLimitMiddleware_config (siteverify : String → String → String → Bool)
    (secret : String) (s : RateLimitService) (clk : Clock) (req : Request) :
    (RateLimitMiddleware siteverify secret s clk req).service.privilegeKey = s.privilegeKey ∧
    (RateLimitMiddleware siteverify secret s clk req).service.ipInterval = s.ipInterval := by
  rcases RateLimitMiddleware_shape siteverify secret s clk req with h | h | ⟨h, _⟩ <;>
  rw [h] <;> exact ⟨rfl, rfl⟩

/-- A run of requests never changes the configuration of the ledger. -/
theorem runRequests_config (secret : String) (es : List Event) :
    ∀ s : RateLimitService, (runRequests secret s es).privilegeKey = s.privilegeKey ∧
      (runRequests secret s es).ipInterval = s.ipInterval := by
  induction es with
  | nil => intro s; exact ⟨rfl, rfl⟩
  | cons e es ih =>
    intro s
    have h1 := ih (RateLimitMiddleware e.siteverify secret s e.clk e.req).service
    have h2 := RateLimitMiddleware_config e.siteverify secret s e.clk e.req
    simp only [runRequests]
    exact ⟨h1.1.trans h2.1, h1.2.trans h2.2⟩

/-- A run splits at a concatenation. -/
theorem runRequests_append (secret : String) (es fs : List Event) :
    ∀ s : RateLimitService,
      runRequests secret s (es ++ fs) = runRequests secret (runRequests secret s es) fs := by
  induction es with
  | nil => intro s; rfl
  | cons e es ih =>
    intro s
    exact ih (RateLimitMiddleware e.siteverify secret s e.clk e.req).service

/-- The record of `ip` right after `UpdateIPRequest` for `ip`. -/
theorem UpdateIPRequest_self (s : RateLimitService) (ip : String) (now : Time) :
    (UpdateIPRequest s ip now).ipRecords ip
      = some ⟨now, (recordOrNew s ip).TurnstileVerified⟩ := by
  simp [UpdateIPRequest]

/-- `UpdateIPRequest` leaves the records of the other clients alone. -/
theorem UpdateIPRequest_other (s : RateLimitService) (ip k : String) (now : Time)
    (hk : k ≠ ip) : (UpdateIPRequest s ip now).ipRecords k = s.ipRecords k := by
  simp [UpdateIPRequest, hk]

/-- The record of `ip` right after `UpdateTurnstileVerification` for `ip`. -/
theorem UpdateTurnstileVerification_self (s : RateLimitService) (ip : String) (now : Time) :
    (UpdateTurnstileVerification s ip now).ipRecords ip
      = some ⟨(recordOrNew s ip).LastRequest, now⟩ := by
  simp [UpdateTurnstileVerification]

/-- `UpdateTurnstileVerification` leaves the records of the other clients alone. -/
theorem UpdateTurnstileVerification_other (s : RateLimitService) (ip k : String) (now : Time)
    (hk : k ≠ ip) : (UpdateTurnstileVerification s ip now).ipRecords k = s.ipRecords k := by
  simp [UpdateTurnstileVerification, hk]

/-- A request that is let through leaves its client with the reading of
`UpdateIPRequest` as last-request time. -/
theorem admitted_sets_last (siteverify : String → String → String → Bool)
    (secret : String) (s : RateLimitService) (clk : Clock) (req : Request)
    (h : (RateLimitMiddleware siteverify secret s clk req).decision = Decision.next) :
    LastRequestFrom (RateLimitMiddleware siteverify secret s clk req).service req.clientIP
      clk.updateIP := by
  rcases RateLimitMiddleware_shape siteverify secret s clk req with h1 | h1 | ⟨_, st, code, h1⟩
  · rw [h1]
    exact ⟨_, UpdateIPRequest_self _ _ _, le_refl _⟩
  · rw [h1]
    exact ⟨_, UpdateIPRequest_self _ _ _, le_refl _⟩
  · rw [h1] at h
    exact absurd h (by simp)

/-- A request whose `UpdateIPRequest` reading is `lo` or later keeps the
last-request time of `ip` at `lo` or later. -/
theorem LastRequestFrom_step (siteverify : String → String → String → Bool)
    (secret : String) (s : RateLimitService) (clk : Clock) (req : Request)
    (ip : String) (lo : Time) (hinv : LastRequestFrom s ip lo) (h1 : lo ≤ clk.updateIP) :
    LastRequestFrom (RateLimitMiddleware siteverify secret s clk req).service ip lo := by
  obtain ⟨r, hr, hlo⟩ := hinv
  rcases RateLimitMiddleware_shape siteverify secret s clk req with h | h | ⟨h, _⟩
  · rw [h]
    by_cases hk : ip = req.clientIP
    · subst hk
      exact ⟨_, UpdateIPRequest_self _ _ _, h1⟩
    · exact ⟨r, by rw [UpdateIPRequest_other _ _ _ _ hk]; exact hr, hlo⟩
  · rw [h]
    by_cases hk : ip = req.clientIP
    · subst hk
      exact ⟨_, UpdateIPRequest_self _ _ _, h1⟩
    · refine ⟨r, ?_, hlo⟩
      rw [UpdateIPRequest_other _ _ _ _ hk]
      show (UpdateTurnstileVerification s req.clientIP clk.updateTurnstile).ipRecords ip = some r
      rw [UpdateTurnstileVerification_other _ _ _ _ hk]
      exact hr
  · rw [h]
    exact ⟨r, hr, hlo⟩

/-- The invariant survives a run whose `UpdateIPRequest` readings are all
`lo` or later. -/
theorem LastRequestFrom_run (secret : String) (ip : String) (lo : Time) (es : List Event) :
    ∀ s : RateLimitService, LastRequestFrom s ip lo →
      (∀ x ∈ es, lo ≤ x.clk.updateIP) → LastRequestFrom (runRequests secret s es) ip lo := by
  induction es with
  | nil => intro s hs _; exact hs
  | cons e es ih =>
    intro s hs hes
    simp only [runRequests]
    apply ih
    · exact LastRequestFrom_step e.siteverify secret s e.clk e.req ip lo hs
        (hes e (List.mem_cons_self _ _))
    · intro x hx
      exact hes x (List.mem_cons_of_mem _ hx)

/-- Before `lo + 30s` the per-client check fails. -/
theorem CheckIPRateLimit_in_window (s : RateLimitService) (ip : String) (lo now : Time)
    (hcfg : s.ipInterval = 30 * Second) (hinv : LastRequestFrom s ip lo)
    (h2 : now < lo + 30 * Second) : CheckIPRateLimit s ip now = false := by
  obtain ⟨r, hr, hlo⟩ := hinv
  simp only [CheckIPRateLimit, hr, hcfg, decide_eq_false_iff_not]
  rw [Time.sub_ge_30s]
  simp only [Second] at *
  delta Time Duration at *
  omega

/-- An unprivileged request whose per-client check fails is denied by one of
the two rate limits. -/
theorem denied_of_ip_check (siteverify : String → String → String → Bool)
    (secret : String) (s : RateLimitService) (clk : Clock) (req : Request)
    (hp : CheckPrivilegeKey s req.privilegeKey = false)
    (hi : CheckIPRateLimit s req.clientIP clk.checkIP = false) :
    (RateLimitMiddleware siteverify secret s clk req).decision
      = Decision.abort 429 "GLOBAL_RATE_LIMIT" ∨
    (RateLimitMiddleware siteverify secret s clk req).decision
      = Decision.abort 429 "IP_RATE_LIMIT" := by
  unfold RateLimitMiddleware
  cases hg : CheckGlobalRateLimit s clk.checkGlobal <;> simp [hp, hi, hg]

/-- C5: take any sequence of requests processed one after the other from a
fresh ledger. If a request of client C is let through and records the time t,
then every later request of C that carries no valid privilege credential and
whose per-client check reads a time t' < t + 30s (in particular every t' with
t <= t' < t + 30s) is denied, by the global or by the per-client limit,
whatever requests were processed in between, as long as the clock did not go
back behind t. -/
theorem per_client_window (secret key : String) (pre mid : List Event) (e e' : Event)
    (hadm : (RateLimitMiddleware e.siteverify secret
      (runRequests secret (NewRateLimitService key) pre) e.clk e.req).decision = Decision.next)
    (hsame : e'.req.clientIP = e.req.clientIP)
    (hnp : ¬ (key ≠ "" ∧ e'.req.privilegeKey = key))
    (hmid : ∀ x ∈ mid, e.clk.updateIP ≤ x.clk.updateIP)
    (hlt : e'.clk.checkIP < e.clk.updateIP + 30 * Second) :
    (RateLimitMiddleware e'.siteverify secret
      (runRequests secret (NewRateLimitService key) (pre ++ e :: mid)) e'.clk e'.req).decision
      = Decision.abort 429 "GLOBAL_RATE_LIMIT" ∨
    (RateLimitMiddleware e'.siteverify secret
      (runRequests secret (NewRateLimitService key) (pre ++ e :: mid)) e'.clk e'.req).decision
      = Decision.abort 429 "IP_RATE_LIMIT" := by
  have hcfg := runRequests_config secret (pre ++ e :: mid) (NewRateLimitService key)
  have hinv : LastRequestFrom (runRequests secret (NewRateLimitService key) (pre ++ e :: mid))
      e'.req.clientIP e.clk.updateIP := by
    rw [runRequests_append, hsame]
    simp only [runRequests]
    exact LastRequestFrom_run secret _ _ mid _
      (admitted_sets_last e.siteverify secret _ e.clk e.req hadm) hmid
  apply denied_of_ip_check
  · cases hc : CheckPrivilegeKey (runRequests secret (NewRateLimitService key)
        (pre ++ e :: mid)) e'.req.privilegeKey
    · rfl
    · rw [CheckPrivilegeKey_iff, hcfg.1] at hc
      exact absurd hc hnp
  · exact CheckIPRateLimit_in_window _ _ _ _ (hcfg.2.trans rfl) hinv hlt

/-- Witness of `per_client_window`: client 1.2.3.4 is let through at the start of
2025, another client eleven seconds later, and the request of 1.2.3.4 after
twenty-two seconds is denied. -/
theorem per_client_window_witness :
    ((RateLimitMiddleware exampleFirst.siteverify "secret"
        (runRequests "secret" (NewRateLimitService "") []) exampleFirst.clk
        exampleFirst.req).decision = Decision.next ∧
      exampleAgain.req.clientIP = exampleFirst.req.clientIP ∧
      ¬ ("" ≠ "" ∧ exampleAgain.req.privilegeKey = "") ∧
      (∀ x ∈ [exampleOther], exampleFirst.clk.updateIP ≤ x.clk.updateIP) ∧
      exampleAgain.clk.checkIP < exampleFirst.clk.updateIP + 30 * Second) ∧
    ((RateLimitMiddleware exampleAgain.siteverify "secret"
        (runRequests "secret" (NewRateLimitService "") ([] ++ exampleFirst :: [exampleOther]))
        exampleAgain.clk exampleAgain.req).decision = Decision.abort 429 "GLOBAL_RATE_LIMIT" ∨
     (RateLimitMiddleware exampleAgain.siteverify "secret"
        (runRequests "secret" (NewRateLimitService "") ([] ++ exampleFirst :: [exampleOther]))
        exampleAgain.clk exampleAgain.req).decision = Decision.abort 429 "IP_RATE_LIMIT") :=
  ⟨⟨by decide, by decide, by decide, by decide, by decide⟩,
    per_client_window "secret" "" [] [exampleOther] exampleFirst exampleAgain
      (by decide) (by decide) (by decide) (by decide) (by decide)⟩

/-! ## The verification requirement -/

/-- The ledger calls never change the verification interval. -/
theorem applyOps_turnstileInterval (ops : List LedgerOp) :
    ∀ s : RateLimitService, (applyOps s ops).turnstileInterval = s.turnstileInterval := by
  induction ops with
  | nil => intro s; rfl
  | cons op ops ih =>
    intro s
    simp only [applyOps, List.foldl_cons] at ih ⊢
    rw [ih]
    cases op <;> rfl

/-- Without a record, or with a record that was never verified, verification
is required at every time. -/
theorem required_of_neverVerified (s : RateLimitService) (ip : String) (now : Time)
    (h : NeverVerified s ip) : CheckTurnstileRequired s ip now = true := by
  unfold CheckTurnstileRequired
  cases hr : s.ipRecords ip with
  | none => rfl
  | some r => simp [Time.IsZero, h r hr]

/-- A ledger call other than a verification of `ip` keeps `ip` never verified. -/
theorem neverVerified_apply (s : RateLimitService) (ip : String) (op : LedgerOp)
    (h : NeverVerified s ip) (hop : LedgerOp.verifies ip op = false) :
    NeverVerified (LedgerOp.apply s op) ip := by
  intro r hr
  cases op with
  | updateGlobal now => exact h r hr
  | updateIP k now =>
    by_cases hk : ip = k
    · subst hk
      simp only [LedgerOp.apply, UpdateIPRequest_self, Option.some.injEq] at hr
      subst hr
      show (recordOrNew s ip).TurnstileVerified = 0
      unfold recordOrNew
      cases hs : s.ipRecords ip with
      | none => rfl
      | some r0 => exact h r0 hs
    · simp only [LedgerOp.apply, UpdateIPRequest_other _ _ _ _ hk] at hr
      exact h r hr
  | updateTurnstile k now =>
    have hk : ip ≠ k := by
      intro hk
      simp [LedgerOp.verifies, hk] at hop
    simp only [LedgerOp.apply, UpdateTurnstileVerification_other _ _ _ _ hk] at hr
    exact h r hr
  | cleanup now =>
    simp only [LedgerOp.apply, CleanupOldRecords] at hr
    cases hs : s.ipRecords ip with
    | none => simp [hs] at hr
    | some r0 =>
      simp only [hs] at hr
      split_ifs at hr
      simp only [Option.some.injEq] at hr
      subst hr
      exact h r0 hs

/-- A sequence of ledger calls without a verification of `ip` keeps `ip` never
verified. -/
theorem neverVerified_applyOps (ip : String) (ops : List LedgerOp) :
    ∀ s : RateLimitService, NeverVerified s ip →
      (∀ op ∈ ops, LedgerOp.verifies ip op = false) → NeverVerified (applyOps s ops) ip := by
  induction ops with
  | nil => intro s h _; exact h
  | cons op ops ih =>
    intro s h hops
    simp only [applyOps, List.foldl_cons] at ih ⊢
    apply ih
    · exact neverVerified_apply s ip op h (hops op (List.mem_cons_self _ _))
    · intro x hx
      exact hops x (List.mem_cons_of_mem _ hx)

/-- `UpdateIPRequest` does not change whether verification is required. -/
theorem required_UpdateIPRequest (s : RateLimitService) (ip k : String) (t now : Time) :
    CheckTurnstileRequired (UpdateIPRequest s k t) ip now = CheckTurnstileRequired s ip now := by
  unfold CheckTurnstileRequired
  by_cases hk : ip = k
  · subst hk
    rw [UpdateIPRequest_self]
    unfold recordOrNew
    cases hs : s.ipRecords ip <;> simp [Time.IsZero, UpdateIPRequest]
  · rw [UpdateIPRequest_other _ _ _ _ hk]
    rfl

/-- `UpdateGlobalRequest` does not change whether verification is required. -/
theorem required_UpdateGlobalRequest (s : RateLimitService) (ip : String) (t now : Time) :
    CheckTurnstileRequired (UpdateGlobalRequest s t) ip now = CheckTurnstileRequired s ip now :=
  rfl

/-- Right after a verification recorded at a time `t` other than the zero
time, verification is required exactly from `t + interval` on. -/
theorem required_after_verification (s : RateLimitService) (ip : String) (t now : Time)
    (ht : t ≠ 0) :
    CheckTurnstileRequired (UpdateTurnstileVerification s ip t) ip now
      = decide (Time.Sub now t ≥ s.turnstileInterval) := by
  unfold CheckTurnstileRequired
  rw [UpdateTurnstileVerification_self]
  simp [Time.IsZero, ht, UpdateTurnstileVerification]

/-- With a record verified at a time `t` other than the zero time, verification
is required exactly from `t + interval` on. -/
theorem required_of_verifiedAt (s : RateLimitService) (ip : String) (t now : Time)
    (ht : t ≠ 0) (h : VerifiedAt s ip t) :
    CheckTurnstileRequired s ip now = decide (Time.Sub now t ≥ s.turnstileInterval) := by
  obtain ⟨r, hr, hv⟩ := h
  unfold CheckTurnstileRequired
  simp [hr, hv, Time.IsZero, ht]

/-- A ledger call other than a verification of `ip`, and other than a sweep
that reads a clock more than 24h past `t`, keeps the record of `ip` verified
at `t`. -/
theorem verifiedAt_apply (s : RateLimitService) (ip : String) (t : Time) (op : LedgerOp)
    (h : VerifiedAt s ip t) (hop : LedgerOp.verifies ip op = false)
    (hsweep : ∀ now, op = LedgerOp.cleanup now → now ≤ t + 24 * Hour) :
    VerifiedAt (LedgerOp.apply s op) ip t := by
  obtain ⟨r, hr, hv⟩ := h
  cases op with
  | updateGlobal now => exact ⟨r, hr, hv⟩
  | updateIP k now =>
    by_cases hk : ip = k
    · subst hk
      refine ⟨_, UpdateIPRequest_self s ip now, ?_⟩
      show (recordOrNew s ip).TurnstileVerified = t
      unfold recordOrNew
      rw [hr]
      exact hv
    · exact ⟨r, by
        show (UpdateIPRequest s k now).ipRecords ip = some r
        rw [UpdateIPRequest_other _ _ _ _ hk]
        exact hr, hv⟩
  | updateTurnstile k now =>
    have hk : ip ≠ k := by
      intro hk
      simp [LedgerOp.verifies, hk] at hop
    exact ⟨r, by
      show (UpdateTurnstileVerification s k now).ipRecords ip = some r
      rw [UpdateTurnstileVerification_other _ _ _ _ hk]
      exact hr, hv⟩
  | cleanup now =>
    have hnow := hsweep now rfl
    have e : ¬ (r.LastRequest < now + -24 * Hour ∧ r.TurnstileVerified < now + -24 * Hour) := by
      rw [hv]
      intro hcon
      have h2 := hcon.2
      linarith
    refine ⟨r, ?_, hv⟩
    show (CleanupOldRecords s now).ipRecords ip = some r
    simp only [CleanupOldRecords, hr, Time.Before, Time.Add, Bool.and_eq_true,
      decide_eq_true_eq, e, if_false]

/-- A sequence of such ledger calls keeps the record of `ip` verified at
`t`. -/
theorem verifiedAt_applyOps (ip : String) (t : Time) (ops : List LedgerOp) :
    ∀ s : RateLimitService, VerifiedAt s ip t →
      (∀ op ∈ ops, LedgerOp.verifies ip op = false) →
      (∀ now, LedgerOp.cleanup now ∈ ops → now ≤ t + 24 * Hour) →
      VerifiedAt (applyOps s ops) ip t := by
  induction ops with
  | nil => intro s h _ _; exact h
  | cons op ops ih =>
    intro s h hops hsweep
    simp only [applyOps, List.foldl_cons] at ih ⊢
    apply ih
    · apply verifiedAt_apply s ip t op h (hops op (List.mem_cons_self _ _))
      intro now hnow
      exact hsweep now (hnow ▸ List.mem_cons_self _ _)
    · intro x hx
      exact hops x (List.mem_cons_of_mem _ hx)
    · intro now hnow
      exact hsweep now (List.mem_cons_of_mem _ hnow)

/-- A ledger call other than a verification of `ip` leaves `ip` without a
record, never verified, or verified at `t`, if it was so before. -/
theorem verifiedAtOrNever_apply (s : RateLimitService) (ip : String) (t : Time)
    (op : LedgerOp) (h : VerifiedAtOrNever s ip t) (hop : LedgerOp.verifies ip op = false) :
    VerifiedAtOrNever (LedgerOp.apply s op) ip t := by
  intro r hr
  cases op with
  | updateGlobal now => exact h r hr
  | updateIP k now =>
    by_cases hk : ip = k
    · subst hk
      simp only [LedgerOp.apply, UpdateIPRequest_self, Option.some.injEq] at hr
      subst hr
      show (recordOrNew s ip).TurnstileVerified = 0 ∨ (recordOrNew s ip).TurnstileVerified = t
      unfold recordOrNew
      cases hs : s.ipRecords ip with
      | none => exact Or.inl rfl
      | some r0 => exact h r0 hs
    · simp only [LedgerOp.apply, UpdateIPRequest_other _ _ _ _ hk] at hr
      exact h r hr
  | updateTurnstile k now =>
    have hk : ip ≠ k := by
      intro hk
      simp [LedgerOp.verifies, hk] at hop
    simp only [LedgerOp.apply, UpdateTurnstileVerification_other _ _ _ _ hk] at hr
    exact h r hr
  | cleanup now =>
    simp only [LedgerOp.apply, CleanupOldRecords] at hr
    cases hs : s.ipRecords ip with
    | none => simp [hs] at hr
    | some r0 =>
      simp only [hs] at hr
      split_ifs at hr
      simp only [Option.some.injEq] at hr
      subst hr
      exact h r0 hs

/-- A sequence of ledger calls without a verification of `ip` leaves `ip`
without a record, never verified, or verified at `t`, if it was so before. -/
theorem verifiedAtOrNever_applyOps (ip : String) (t : Time) (ops : List LedgerOp) :
    ∀ s : RateLimitService, VerifiedAtOrNever s ip t →
      (∀ op ∈ ops, LedgerOp.verifies ip op = false) →
      VerifiedAtOrNever (applyOps s ops) ip t := by
  induction ops with
  | nil => intro s h _; exact h
  | cons op ops ih =>
    intro s h hops
    simp only [applyOps, List.foldl_cons] at ih ⊢
    apply ih
    · exact verifiedAtOrNever_apply s ip t op h (hops op (List.mem_cons_self _ _))
    · intro x hx
      exact hops x (List.mem_cons_of_mem _ hx)

/-- Without a record, never verified, or verified at `t`: from `t + interval`
on verification is required. -/
theorem required_of_verifiedAtOrNever (s : RateLimitService) (ip : String) (t now : Time)
    (h : VerifiedAtOrNever s ip t) (hlate : Time.Sub now t ≥ s.turnstileInterval) :
    CheckTurnstileRequired s ip now = true := by
  unfold CheckTurnstileRequired
  cases hr : s.ipRecords ip with
  | none => rfl
  | some r =>
    rcases h r hr with h0 | ht
    · simp [Time.IsZero, h0]
    · simp only [ht]
      split_ifs
      · rfl
      · exact decide_eq_true hlate

/-- C6: for every client id, (1) from a fresh ledger, after any sequence of
ledger calls that contains no `UpdateTurnstileVerification(id)`, verification
is required at every time, whether or not the client has a record; (2) after a
verification of id recorded at a clock reading t (a reading is never the zero
time), followed by any ledger calls other than a further verification of id
(requests and verifications of any client, sweeps), verification is required
at every t' >= t + 60s, and is not required at any t' with t <= t' < t + 60s,
as long as no sweep among those calls reads a clock more than 24h past t,
which no sweep before t' does; (3) `UpdateIPRequest` and `UpdateGlobalRequest`
never change the value. -/
theorem turnstile_required_lifecycle (id : String) :
    (∀ (key : String) (ops : List LedgerOp) (now : Time),
      (∀ op ∈ ops, LedgerOp.verifies id op = false) →
      CheckTurnstileRequired (applyOps (NewRateLimitService key) ops) id now = true) ∧
    (∀ (key : String) (pre ops : List LedgerOp) (t t' : Time), t ≠ 0 →
      (∀ op ∈ ops, LedgerOp.verifies id op = false) →
      (t ≤ t' → t' < t + 60 * Second →
        (∀ now, LedgerOp.cleanup now ∈ ops → now ≤ t + 24 * Hour) →
        CheckTurnstileRequired (applyOps (UpdateTurnstileVerification
          (applyOps (NewRateLimitService key) pre) id t) ops) id t' = false) ∧
      (t + 60 * Second ≤ t' →
        CheckTurnstileRequired (applyOps (UpdateTurnstileVerification
          (applyOps (NewRateLimitService key) pre) id t) ops) id t' = true)) ∧
    (∀ (s : RateLimitService) (ip : String) (t now : Time),
      CheckTurnstileRequired (UpdateIPRequest s ip t) id now
        = CheckTurnstileRequired s id now) ∧
    (∀ (s : RateLimitService) (t now : Time),
      CheckTurnstileRequired (UpdateGlobalRequest s t) id now
        = CheckTurnstileRequired s id now) := by
  refine ⟨?_, ?_, ?_, ?_⟩
  · intro key ops now hops
    apply required_of_neverVerified
    apply neverVerified_applyOps id ops _ _ hops
    intro r hr
    simp [NewRateLimitService] at hr
  · intro key pre ops t t' ht hops
    have hiv : (applyOps (UpdateTurnstileVerification
        (applyOps (NewRateLimitService key) pre) id t) ops).turnstileInterval
        = 1 * 60 * Second := by
      rw [applyOps_turnstileInterval]
      show (applyOps (NewRateLimitService key) pre).turnstileInterval = 1 * 60 * Second
      rw [applyOps_turnstileInterval]
      rfl
    have hstart : VerifiedAt (UpdateTurnstileVerification
        (applyOps (NewRateLimitService key) pre) id t) id t :=
      ⟨_, UpdateTurnstileVerification_self _ _ _, rfl⟩
    constructor
    · intro h1 h2 hsweep
      rw [required_of_verifiedAt _ id t t' ht
        (verifiedAt_applyOps id t ops _ hstart hops hsweep), hiv,
        decide_eq_false_iff_not, Time.sub_ge_60s]
      simp only [Second] at *
      delta Time Duration at *
      omega
    · intro h1
      apply required_of_verifiedAtOrNever _ id t t'
      · apply verifiedAtOrNever_applyOps id t ops _ _ hops
        intro r hr
        obtain ⟨r0, hr0, hv0⟩ := hstart
        rw [hr0, Option.some.injEq] at hr
        subst hr
        exact Or.inr hv0
      · rw [hiv, ge_iff_le, ← ge_iff_le, Time.sub_ge_60s]
        simp only [Second] at *
        delta Time Duration at *
        omega
  · intro s ip t now
    exact required_UpdateIPRequest s id ip t now
  · intro s t now
    rfl

/-- Witness of `turnstile_required_lifecycle`: client 1.2.3.4 is verified at the
start of 2025; one second later client 5.6.7.8 is verified, the sweep runs and
1.2.3.4 makes a request; after 59 seconds no verification is required of
1.2.3.4. -/
theorem turnstile_required_lifecycle_witness :
    (t2025 ≠ 0 ∧
      (∀ op ∈ [LedgerOp.updateTurnstile "5.6.7.8" (t2025 + Second),
          LedgerOp.cleanup (t2025 + Second), LedgerOp.updateIP "1.2.3.4" (t2025 + Second)],
        LedgerOp.verifies "1.2.3.4" op = false) ∧
      t2025 ≤ t2025 + 59 * Second ∧ t2025 + 59 * Second < t2025 + 60 * Second ∧
      (∀ now, LedgerOp.cleanup now ∈ [LedgerOp.updateTurnstile "5.6.7.8" (t2025 + Second),
          LedgerOp.cleanup (t2025 + Second), LedgerOp.updateIP "1.2.3.4" (t2025 + Second)] →
        now ≤ t2025 + 24 * Hour)) ∧
    CheckTurnstileRequired (applyOps (UpdateTurnstileVerification
      (applyOps (NewRateLimitService "") []) "1.2.3.4" t2025)
      [LedgerOp.updateTurnstile "5.6.7.8" (t2025 + Second),
        LedgerOp.cleanup (t2025 + Second), LedgerOp.updateIP "1.2.3.4" (t2025 + Second)])
      "1.2.3.4" (t2025 + 59 * Second) = false :=
  ⟨⟨by decide, by decide, by decide, by decide, by
      intro now hnow
      simp only [List.mem_cons, LedgerOp.cleanup.injEq, List.mem_singleton, reduceCtorEq,
        false_or, or_false, List.not_mem_nil] at hnow
      subst hnow
      decide⟩,
    ((turnstile_required_lifecycle "1.2.3.4").2.1 "" []
      [LedgerOp.updateTurnstile "5.6.7.8" (t2025 + Second),
        LedgerOp.cleanup (t2025 + Second), LedgerOp.updateIP "1.2.3.4" (t2025 + Second)]
      t2025 (t2025 + 59 * Second) (by decide) (by decide)).1 (by decide) (by decide) (by
        intro now hnow
        simp only [List.mem_cons, LedgerOp.cleanup.injEq, List.mem_singleton, reduceCtorEq,
          false_or, or_false, List.not_mem_nil] at hnow
        subst hnow
        decide)⟩

/-! ## The orchestrator -/

/-- What a returning call of `GenerateImage` hands back: the request struct is
untouched; on an error the image is `nil` and the payload string is empty; on
success the payload string is the serialized payload, it is what was posted,
and an image is present. -/
theorem GenerateImage_done (s : NovelAIService) (env : Provider) (req : GenerationRequest)
    (r : GenerateResult) (h : s.GenerateImage env req = Run.done r) :
    r.req = req ∧
    (∀ e, r.err = some e → r.imageData = none ∧ r.payload = "") ∧
    (r.err = none →
      env.marshal (buildPayload req (resolveSeed req.Seed env.rnd)) = Except.ok r.payload ∧
      r.posted = some r.payload ∧ ∃ img, r.imageData = some img) := by
  unfold NovelAIService.GenerateImage at h
  cases hm : env.marshal (buildPayload req (resolveSeed req.Seed env.rnd)) with
  | error e =>
    simp only [hm, Run.done.injEq] at h
    subst h
    simp
  | ok body =>
    simp only [hm] at h
    cases hn : env.newRequest body with
    | error e =>
      simp only [hn, Run.done.injEq] at h
      subst h
      simp
    | ok u =>
      simp only [hn] at h
      cases hsend : env.send s.apiKey body with
      | error e =>
        simp only [hsend, Run.done.injEq] at h
        subst h
        simp
      | ok resp =>
        simp only [hsend] at h
        by_cases hst : resp.StatusCode = 200
        · simp only [hst, ne_eq, not_true_eq_false, if_false] at h
          cases hb : resp.BodyErr with
          | some e =>
            simp only [hb, Run.done.injEq] at h
            subst h
            simp
          | none =>
            simp only [hb] at h
            cases hx : extractPNGFromZip env.zipNewReader resp.Body with
            | panic msg => simp [hx] at h
            | done d =>
              cases d with
              | error e =>
                simp only [hx, Run.done.injEq] at h
                subst h
                simp
              | ok img =>
                simp only [hx, Run.done.injEq] at h
                subst h
                simp
        · simp only [ne_eq, hst, not_false_eq_true, if_true, Run.done.injEq] at h
          subst h
          simp

/-! ## The recorder and the handler -/

/-- A successful insert appends the row it returns. -/
theorem dbCreate_ok (env : StorageEnv) (st st1 : Storage) (g row : ImageGeneration)
    (h : dbCreate env st g = (st1, Except.ok row)) :
    st1.rows = st.rows ++ [row] ∧ row.Seed = g.Seed ∧
      row.OriginalPayload = g.OriginalPayload := by
  unfold dbCreate at h
  cases hc : env.createErr with
  | some e => simp [hc] at h
  | none =>
    simp only [hc, Prod.mk.injEq, Except.ok.injEq] at h
    obtain ⟨h1, h2⟩ := h
    subst h1
    subst h2
    exact ⟨rfl, rfl, rfl⟩

/-- A successful `SaveImageGeneration` appends the record it returns, and the
record carries the seed that was passed in. -/
theorem SaveImageGeneration_ok (s : ImageService) (env : StorageEnv) (st st1 : Storage)
    (prompt negativePrompt : String) (seed steps width height : Int)
    (stylePresetID : Option Nat) (originalPayload : String) (imageData : Bytes)
    (g : ImageGeneration)
    (h : s.SaveImageGeneration env st prompt negativePrompt seed steps width height
      stylePresetID originalPayload imageData = (st1, Except.ok g)) :
    st1.rows = st.rows ++ [g] ∧ g.Seed = seed := by
  unfold ImageService.SaveImageGeneration at h
  cases hmk : env.mkdirErr with
  | some e => simp [hmk] at h
  | none =>
    simp only [hmk] at h
    unfold osWriteFile at h
    cases hw : env.writeErr with
    | some e => simp [hw] at h
    | none =>
      simp only [hw] at h
      split at h
      · simp at h
      · rename_i st2 row hc
        simp only [Prod.mk.injEq, Except.ok.injEq] at h
        obtain ⟨h1, h2⟩ := h
        subst h1
        subst h2
        have := dbCreate_ok _ _ _ _ _ hc
        exact ⟨this.1, this.2.1⟩

/-- `UpdateGenerationTime` keeps, for every row, a row with the same identity
and the same seed. -/
theorem UpdateGenerationTime_keeps (s : ImageService) (env : StorageEnv) (st : Storage)
    (id : Nat) (generationTime : Int) (g : ImageGeneration) (hg : g ∈ st.rows) :
    ∃ row ∈ (s.UpdateGenerationTime env st id generationTime).rows,
      row.ID = g.ID ∧ row.Seed = g.Seed := by
  unfold ImageService.UpdateGenerationTime
  cases env.updateErr with
  | some e => exact ⟨g, hg, rfl, rfl⟩
  | none =>
    refine ⟨if g.ID = id then { g with GenerationTime := generationTime } else g,
      List.mem_map.2 ⟨g, hg, rfl⟩, ?_, ?_⟩ <;> split_ifs <;> rfl

/-- For `-1` the seed placed in the payload is a draw, which is never
negative. -/
theorem resolveSeed_random_nonneg (rnd : Nat) : 0 ≤ resolveSeed (-1) rnd := by
  simp only [resolveSeed, Int63n, if_true]
  omega

/-- C7 (what the code does): whenever the generate handler answers with a
success body, the seed in the response and in the stored record is the seed of
the request as it came in, while the payload posted to the provider carries
the resolved seed. For a request with seed -1 the two differ: the record and
the response hold the -1 sentinel, not the seed that was drawn. For every
other seed the stored seed is the requested one. -/
theorem stored_seed_is_request_seed (h : ImageHandler) (env : Provider) (senv : StorageEnv)
    (elapsedMs : Int) (st : Storage) (req : GenerateImageRequest) (res : HandlerResult)
    (resp : GenerateImageResponse)
    (hrun : h.GenerateImage env senv elapsedMs st (Except.ok req) = Run.done res)
    (hresp : res.response = HandlerResponse.ok resp) :
    resp.Seed = req.Seed ∧
    (∃ row ∈ res.storage.rows, row.ID = resp.ID ∧ row.Seed = req.Seed) ∧
    (∃ body, res.posted = some body ∧
      env.marshal (buildPayload (novelaiReqOf (withDefaults req))
        (resolveSeed req.Seed env.rnd)) = Except.ok body) ∧
    (req.Seed = -1 → resolveSeed req.Seed env.rnd ≠ resp.Seed) := by
  unfold ImageHandler.GenerateImage at hrun
  simp only at hrun
  cases hgen : h.novelaiService.GenerateImage env (novelaiReqOf (withDefaults req)) with
  | panic msg => simp [hgen] at hrun
  | done r =>
    obtain ⟨hreq, _, hsucc⟩ := GenerateImage_done _ _ _ _ hgen
    simp only [hgen] at hrun
    cases herr : r.err with
    | some e =>
      simp only [herr] at hrun
      split at hrun
      · simp at hrun
      · simp only [Run.done.injEq] at hrun
        subst hrun
        simp at hresp
    | none =>
      obtain ⟨hm, hposted, _⟩ := hsucc herr
      simp only [herr] at hrun
      split at hrun
      · simp only [Run.done.injEq] at hrun
        subst hrun
        simp at hresp
      · rename_i st1 g hsave
        simp only [Run.done.injEq] at hrun
        subst hrun
        simp only [HandlerResponse.ok.injEq] at hresp
        subst hresp
        obtain ⟨hrows, hseed⟩ := SaveImageGeneration_ok _ _ _ _ _ _ _ _ _ _ _ _ _ _ hsave
        have hs : g.Seed = req.Seed := by
          rw [hseed, hreq]
          rfl
        refine ⟨hs, ?_, ⟨r.payload, hposted, hm⟩, ?_⟩
        · have hg : g ∈ st1.rows := by simp [hrows]
          obtain ⟨row, hrow, h1, h2⟩ :=
            UpdateGenerationTime_keeps h.imageService senv st1 g.ID elapsedMs g hg
          exact ⟨row, hrow, h1, h2.trans hs⟩
        · intro hneg
          simp only [hs, hneg]
          have := resolveSeed_random_nonneg env.rnd
          omega

/-- Witness of `stored_seed_is_request_seed`: the provider succeeds on a request
with seed -1; the drawn seed 12345 is posted, and -1 is stored and returned. -/
theorem stored_seed_is_request_seed_witness :
    (exampleHandler.GenerateImage providerOk storageOk 1500 emptyStorage
        (Except.ok randomSeedRequest) = Run.done randomSeedResult ∧
      randomSeedResult.response
        = HandlerResponse.ok ⟨1, "/files/2025/01/novelai_20250101_000000_-1.png", -1,
            "Image generated successfully"⟩ ∧
      randomSeedRequest.Seed = -1) ∧
    resolveSeed randomSeedRequest.Seed providerOk.rnd ≠ -1 :=
  ⟨⟨rfl, rfl, rfl⟩,
    (stored_seed_is_request_seed exampleHandler providerOk storageOk 1500 emptyStorage
      randomSeedRequest randomSeedResult
      ⟨1, "/files/2025/01/novelai_20250101_000000_-1.png", -1, "Image generated successfully"⟩
      rfl rfl).2.2.2 rfl⟩

/-! ## Seed resolution -/

/-- C8, as stated, fails: with the requested seed -1 no draw puts 9999999999
into the payload. -/
theorem seed_9999999999_never_drawn :
    ¬ ∃ rnd : Nat, (buildPayload (novelaiReqOf randomSeedRequest)
      (resolveSeed (novelaiReqOf randomSeedRequest).Seed rnd)).Parameters.Seed
        = 9999999999 := by
  rintro ⟨rnd, h⟩
  simp only [buildPayload, resolveSeed, Int63n, novelaiReqOf, randomSeedRequest,
    if_true] at h
  omega

/-- C8, amended: when the requested seed is -1 the payload seed takes exactly
the values of [0, 9999999999), that is 0 .. 9999999998: every draw lies in
that range and every integer of it is drawn for some value of the random
source; when the requested seed is any other value the payload seed equals
it. -/
theorem payload_seed_range (req : GenerationRequest) :
    (req.Seed = -1 →
      (∀ rnd : Nat,
        0 ≤ (buildPayload req (resolveSeed req.Seed rnd)).Parameters.Seed ∧
        (buildPayload req (resolveSeed req.Seed rnd)).Parameters.Seed < 9999999999) ∧
      (∀ x : Int, 0 ≤ x → x < 9999999999 →
        ∃ rnd : Nat, (buildPayload req (resolveSeed req.Seed rnd)).Parameters.Seed = x)) ∧
    (req.Seed ≠ -1 →
      ∀ rnd : Nat, (buildPayload req (resolveSeed req.Seed rnd)).Parameters.Seed
        = req.Seed) := by
  constructor
  · intro hs
    simp only [buildPayload, resolveSeed, Int63n, hs, if_true]
    constructor
    · intro rnd
      omega
    · intro x h0 h1
      refine ⟨x.toNat, ?_⟩
      omega
  · intro hs rnd
    simp only [buildPayload, resolveSeed, hs, if_false]

/-- Witness of `payload_seed_range`: for the request with seed -1 the value
9999999998 is reached. -/
theorem payload_seed_range_witness :
    (novelaiReqOf randomSeedRequest).Seed = -1 ∧
    ∃ rnd : Nat, (buildPayload (novelaiReqOf randomSeedRequest)
      (resolveSeed (novelaiReqOf randomSeedRequest).Seed rnd)).Parameters.Seed
        = 9999999998 :=
  ⟨rfl, ((payload_seed_range (novelaiReqOf randomSeedRequest)).1 rfl).2 9999999998
    (by decide) (by decide)⟩

/-! ## Payload on failure -/

/-- C9 (what the code does): every call of `GenerateImage` that returns an
error returns the empty string as payload and no image, also when the payload
had already been serialized and posted; on success the returned payload string
is the serialized payload and is exactly what was posted. -/
theorem payload_returned_only_on_success (s : NovelAIService) (env : Provider)
    (req : GenerationRequest) (r : GenerateResult)
    (h : s.GenerateImage env req = Run.done r) :
    (∀ e, r.err = some e → r.imageData = none ∧ r.payload = "") ∧
    (r.err = none →
      env.marshal (buildPayload req (resolveSeed req.Seed env.rnd)) = Except.ok r.payload ∧
      r.posted = some r.payload) := by
  obtain ⟨_, h1, h2⟩ := GenerateImage_done s env req r h
  exact ⟨h1, fun he => ⟨(h2 he).1, (h2 he).2.1⟩⟩

/-- Witness of `payload_returned_only_on_success`: the provider answers 500; the
payload "seed=12345" was posted and the empty string is returned. -/
theorem payload_returned_only_on_success_witness :
    (exampleHandler.novelaiService.GenerateImage provider500 (novelaiReqOf randomSeedRequest)
        = Run.done failedResult ∧
      failedResult.err = some "API error 500: no" ∧
      failedResult.posted = some "seed=12345") ∧
    failedResult.imageData = none ∧ failedResult.payload = "" :=
  ⟨⟨rfl, rfl, rfl⟩,
    (payload_returned_only_on_success exampleHandler.novelaiService provider500
      (novelaiReqOf randomSeedRequest) failedResult rfl).1 "API error 500: no" rfl⟩

/-! ## Unpacking the archive -/

/-- The loop panics when a member with a name shorter than four bytes comes
before every member whose name ends in ".png". -/
theorem extractPNGLoop_panics (before : List ZipFile) (f : ZipFile) (after : List ZipFile)
    (hbefore : ∀ x ∈ before, 4 ≤ x.Name.length ∧
      x.Name.drop (x.Name.length - 4) ≠ bytesOf ".png")
    (hshort : f.Name.length < 4) :
    extractPNGLoop (before ++ f :: after) = Run.panic "slice bounds out of range" := by
  induction before with
  | nil => simp [extractPNGLoop, hshort]
  | cons x xs ih =>
    have hx := hbefore x (List.mem_cons_self _ _)
    have h4 : ¬ x.Name.length < 4 := by omega
    simp only [List.cons_append, extractPNGLoop, h4, hx.2, if_false]
    exact ih (fun y hy => hbefore y (List.mem_cons_of_mem _ hy))

/-- C10 (what the code does): `extractPNGFromZip` is not total. On a readable
archive in which a member with a name shorter than four bytes comes before
every member whose name ends in ".png", the slice expression panics: the
function returns neither the image of a later ".png" member nor the "no PNG
file found" error. -/
theorem extractPNGFromZip_panics_on_short_name
    (zipNewReader : Bytes → Except String (List ZipFile)) (zipData : Bytes)
    (before : List ZipFile) (f : ZipFile) (after : List ZipFile)
    (hparse : zipNewReader zipData = Except.ok (before ++ f :: after))
    (hbefore : ∀ x ∈ before, 4 ≤ x.Name.length ∧
      x.Name.drop (x.Name.length - 4) ≠ bytesOf ".png")
    (hshort : f.Name.length < 4) :
    extractPNGFromZip zipNewReader zipData = Run.panic "slice bounds out of range" := by
  unfold extractPNGFromZip
  rw [hparse]
  exact extractPNGLoop_panics before f after hbefore hshort

/-- Witness of `extractPNGFromZip_panics_on_short_name`: an archive whose first
member is named "a" and whose second member is "image_0.png". -/
theorem extractPNGFromZip_panics_on_short_name_witness :
    (readShortNameFirst [80, 75] = Except.ok ([] ++ memberA :: [memberPng]) ∧
      (∀ x ∈ ([] : List ZipFile), 4 ≤ x.Name.length ∧
        x.Name.drop (x.Name.length - 4) ≠ bytesOf ".png") ∧
      memberA.Name.length < 4) ∧
    extractPNGFromZip readShortNameFirst [80, 75] = Run.panic "slice bounds out of range" :=
  ⟨⟨rfl, by simp, by decide⟩,
    extractPNGFromZip_panics_on_short_name readShortNameFirst [80, 75] [] memberA [memberPng]
      rfl (by simp) (by decide)⟩

/-! ## The two rate-limit checks -/

/-- C14: for every ledger state with the configured intervals and every time
`now`, `CheckGlobalRateLimit` is true exactly when `now` minus the global
last-request time is at least 10s, so it is true at exactly 10s, and it is
true on a fresh ledger for every clock reading at least 10s past the zero
time; `CheckIPRateLimit(id)` is true exactly when `id` has no record or `now`
minus its last-request time is at least 30s. Both checks are functions of the
ledger that return only the verdict. -/
theorem rate_limit_checks (key : String) (g : Time) (m : String → Option IPRecord)
    (now : Time) (id : String) :
    (CheckGlobalRateLimit (ledgerOf key g m) now = true ↔ now - g ≥ 10 * Second) ∧
    (now - g = 10 * Second → CheckGlobalRateLimit (ledgerOf key g m) now = true) ∧
    (10 * Second ≤ now → CheckGlobalRateLimit (NewRateLimitService key) now = true) ∧
    (CheckIPRateLimit (ledgerOf key g m) id now = true ↔
      m id = none ∨ ∃ r, m id = some r ∧ now - r.LastRequest ≥ 30 * Second) := by
  have hglobal : CheckGlobalRateLimit (ledgerOf key g m) now = true ↔
      now - g ≥ 10 * Second := by
    simp only [CheckGlobalRateLimit, ledgerOf, NewRateLimitService, decide_eq_true_eq]
    exact Time.sub_ge_10s now g
  refine ⟨hglobal, ?_, ?_, ?_⟩
  · intro h
    rw [hglobal, h]
  · intro h
    simp only [CheckGlobalRateLimit, NewRateLimitService, decide_eq_true_eq]
    rw [Time.sub_ge_10s]
    simp only [Second] at *
    delta Time Duration at *
    omega
  · simp only [CheckIPRateLimit, ledgerOf, NewRateLimitService]
    cases hr : m id with
    | none => simp
    | some r =>
      simp only [decide_eq_true_eq, false_or, Option.some.injEq, exists_eq_left', reduceCtorEq]
      exact Time.sub_ge_30s now r.LastRequest

/-- Witness of `rate_limit_checks`: at the start of 2025 the global check passes
on a fresh ledger, and it passes exactly ten seconds after an admission. -/
theorem rate_limit_checks_witness :
    ((t2025 + 10 * Second) - t2025 = 10 * Second ∧ 10 * Second ≤ t2025) ∧
    CheckGlobalRateLimit (ledgerOf "" t2025 fun _ => none) (t2025 + 10 * Second) = true ∧
    CheckGlobalRateLimit (NewRateLimitService "") t2025 = true :=
  ⟨⟨by decide, by decide⟩,
    (rate_limit_checks "" t2025 (fun _ => none) (t2025 + 10 * Second) "1.2.3.4").2.1
      (by decide),
    (rate_limit_checks "" t2025 (fun _ => none) t2025 "1.2.3.4").2.2.1 (by decide)⟩

/-! ## The sweep -/

/-- C16: `CleanupOldRecords` removes exactly the records whose last-request
time and last-verified time are both before `now - 24h` (the last-verified
time of a never-verified client is the zero time); a record with one of the two
timestamps at or after the cutoff is kept as it is; clients without a record
stay without one; the global last-request time and the configuration are
unchanged. -/
theorem cleanup_removes_exactly_old (s : RateLimitService) (now : Time) :
    (∀ k r, s.ipRecords k = some r →
      r.LastRequest < now - 24 * Hour → r.TurnstileVerified < now - 24 * Hour →
      (CleanupOldRecords s now).ipRecords k = none) ∧
    (∀ k r, s.ipRecords k = some r →
      (now - 24 * Hour ≤ r.LastRequest ∨ now - 24 * Hour ≤ r.TurnstileVerified) →
      (CleanupOldRecords s now).ipRecords k = some r) ∧
    (∀ k, s.ipRecords k = none → (CleanupOldRecords s now).ipRecords k = none) ∧
    (CleanupOldRecords s now).globalLastRequest = s.globalLastRequest ∧
    (CleanupOldRecords s now).privilegeKey = s.privilegeKey ∧
    (CleanupOldRecords s now).globalInterval = s.globalInterval ∧
    (CleanupOldRecords s now).ipInterval = s.ipInterval ∧
    (CleanupOldRecords s now).turnstileInterval = s.turnstileInterval := by
  refine ⟨?_, ?_, ?_, rfl, rfl, rfl, rfl, rfl⟩
  · intro k r hr h1 h2
    have e1 : (r.LastRequest < now + -24 * Hour) := by
      delta Time Duration at *
      omega
    have e2 : (r.TurnstileVerified < now + -24 * Hour) := by
      delta Time Duration at *
      omega
    simp only [CleanupOldRecords, hr, Time.Before, Time.Add, e1, e2, decide_True,
      Bool.and_self, if_true]
  · intro k r hr h
    have e : ¬ (r.LastRequest < now + -24 * Hour ∧ r.TurnstileVerified < now + -24 * Hour) := by
      delta Time Duration at *
      omega
    simp only [CleanupOldRecords, hr, Time.Before, Time.Add, Bool.and_eq_true,
      decide_eq_true_eq, e, if_false]
  · intro k hk
    simp [CleanupOldRecords, hk]

/-- Witness of `cleanup_removes_exactly_old`: two days after the start of 2025
the sweep removes clients 1.2.3.4 and 5.6.7.8; one hour after it keeps both. -/
theorem cleanup_removes_exactly_old_witness :
    (exampleLedger.ipRecords "5.6.7.8" = some ⟨t2025, 0⟩ ∧
      t2025 < (t2025 + 48 * Hour) - 24 * Hour ∧ (0 : Time) < (t2025 + 48 * Hour) - 24 * Hour ∧
      (t2025 + Hour) - 24 * Hour ≤ t2025) ∧
    (CleanupOldRecords exampleLedger (t2025 + 48 * Hour)).ipRecords "5.6.7.8" = none ∧
    (CleanupOldRecords exampleLedger (t2025 + Hour)).ipRecords "5.6.7.8" = some ⟨t2025, 0⟩ :=
  ⟨⟨by decide, by decide, by decide, by decide⟩,
    (cleanup_removes_exactly_old exampleLedger (t2025 + 48 * Hour)).1 "5.6.7.8" ⟨t2025, 0⟩
      (by decide) (by decide) (by decide),
    (cleanup_removes_exactly_old exampleLedger (t2025 + Hour)).2.1 "5.6.7.8" ⟨t2025, 0⟩
      (by decide) (Or.inl (by decide))⟩

/-! ## Roll-back of the file after a failed insert -/

/-- C11, as stated, fails: when the path the call writes to already holds a
file, a call whose write succeeds and whose insert fails does not leave the
files that existed before unchanged: that file is overwritten and then
removed. -/
theorem existing_file_lost_on_rollback :
    ¬ (∀ k, occupiedStorage.files k ≠ none →
        ((exampleHandler.imageService.SaveImageGeneration insertFails occupiedStorage
          "a cat" "blurry" 7 28 832 1216 none "seed=7" [1, 2, 3]).1.files k
          = occupiedStorage.files k)) := by
  intro h
  have h1 := h "data/images/2025/01/novelai_20250101_000000_7.png" (by decide)
  revert h1
  decide

/-- What `SaveImageGeneration` returns when the directory and the file are
written and the insert fails. -/
theorem SaveImageGeneration_insert_fails (s : ImageService) (env : StorageEnv) (st : Storage)
    (prompt negativePrompt : String) (seed steps width height : Int)
    (stylePresetID : Option Nat) (originalPayload : String) (imageData : Bytes) (e : String)
    (hmk : env.mkdirErr = none) (hw : env.writeErr = none) (hc : env.createErr = some e) :
    s.SaveImageGeneration env st prompt negativePrompt seed steps width height
      stylePresetID originalPayload imageData
      = (osRemove env { st with files := fun k =>
            if k = imageFullPath s env seed then some imageData else st.files k }
          (imageFullPath s env seed),
         Except.error ("failed to save to database: " ++ e)) := by
  simp only [ImageService.SaveImageGeneration, osWriteFile, dbCreate, hmk, hw, hc,
    imageFullPath, imageFileName]

/-- C11, amended: for every call of `SaveImageGeneration` in which the file
write succeeds and the insert fails, the function returns an error and no
record, the table is as before, the file it just wrote is removed again, so
that after a successful removal no file is left at the path the call wrote
to, and the files at every other path are unchanged. -/
theorem rollback_on_insert_failure (s : ImageService) (env : StorageEnv) (st : Storage)
    (prompt negativePrompt : String) (seed steps width height : Int)
    (stylePresetID : Option Nat) (originalPayload : String) (imageData : Bytes) (e : String)
    (hmk : env.mkdirErr = none) (hw : env.writeErr = none) (hc : env.createErr = some e) :
    (s.SaveImageGeneration env st prompt negativePrompt seed steps width height
      stylePresetID originalPayload imageData).2
      = Except.error ("failed to save to database: " ++ e) ∧
    (s.SaveImageGeneration env st prompt negativePrompt seed steps width height
      stylePresetID originalPayload imageData).1.rows = st.rows ∧
    (env.removeErr = none →
      (s.SaveImageGeneration env st prompt negativePrompt seed steps width height
        stylePresetID originalPayload imageData).1.files (imageFullPath s env seed) = none) ∧
    (∀ k, k ≠ imageFullPath s env seed →
      (s.SaveImageGeneration env st prompt negativePrompt seed steps width height
        stylePresetID originalPayload imageData).1.files k = st.files k) := by
  rw [SaveImageGeneration_insert_fails s env st prompt negativePrompt seed steps width height
    stylePresetID originalPayload imageData e hmk hw hc]
  unfold osRemove
  cases hr : env.removeErr with
  | none =>
    refine ⟨rfl, rfl, ?_, ?_⟩
    · intro _
      simp
    · intro k hk
      simp [hk]
  | some re =>
    refine ⟨rfl, rfl, ?_, ?_⟩
    · intro h
      exact absurd h (by simp)
    · intro k hk
      simp [hk]

/-- Witness of `rollback_on_insert_failure`: with the image root
`./data/images`, an empty image directory, a successful write and a failing
insert, no file is left at the cleaned path the call wrote to. -/
theorem rollback_on_insert_failure_witness :
    (insertFails.mkdirErr = none ∧ insertFails.writeErr = none ∧
      insertFails.createErr = some "database is locked" ∧ insertFails.removeErr = none) ∧
    imageFullPath exampleHandler.imageService insertFails 7
      = "data/images/2025/01/novelai_20250101_000000_7.png" ∧
    (exampleHandler.imageService.SaveImageGeneration insertFails emptyStorage
      "a cat" "blurry" 7 28 832 1216 none "seed=7" [1, 2, 3]).1.files
        "data/images/2025/01/novelai_20250101_000000_7.png" = none :=
  ⟨⟨rfl, rfl, rfl, rfl⟩, by decide,
    (rollback_on_insert_failure exampleHandler.imageService insertFails emptyStorage
      "a cat" "blurry" 7 28 832 1216 none "seed=7" [1, 2, 3] "database is locked"
      rfl rfl rfl).2.2.1 rfl⟩

/-! ## Paths -/

/-- A string with a non-empty part in front is not empty. -/
theorem append_ne_empty_left (a b : String) (ha : a ≠ "") : a ++ b ≠ "" := by
  intro h
  have h1 : (a ++ b).length = 0 := by rw [h]; rfl
  rw [String.length_append] at h1
  apply ha
  have h2 : a.length = 0 := by omega
  exact String.ext (List.length_eq_zero.1 h2)

/-- The last step of `Clean` never yields the empty string. -/
theorem orDot_ne_empty (out : List Char) : orDot out ≠ "" := by
  unfold orDot
  split_ifs with h
  · decide
  · intro h1
    apply h
    have := congrArg String.data h1
    simpa using this

/-- A cleaned path is never empty. -/
theorem Clean_ne_empty (p : String) : Clean p ≠ "" := by
  unfold Clean
  split_ifs with h1
  · decide
  · exact orDot_ne_empty _

/-- The file name of a stored image is never empty. -/
theorem imageFileName_ne_empty (env : StorageEnv) (seed : Int) : imageFileName env seed ≠ "" := by
  unfold imageFileName
  simp only [String.append_assoc]
  exact append_ne_empty_left _ _ (by decide)

/-- A join with a non-empty last element is never empty. -/
theorem filepathJoin_ne_empty (a b : String) (hb : b ≠ "") : filepathJoin a b ≠ "" := by
  unfold filepathJoin
  split_ifs with ha
  · exact Clean_ne_empty _
  · exact Clean_ne_empty _

/-! ## The handler, case by case -/

/-- The error text of a failed `GenerateImage` is never empty. -/
theorem GenerateImage_err_ne_empty (s : NovelAIService) (env : Provider)
    (req : GenerationRequest) (r : GenerateResult) (e : String)
    (h : s.GenerateImage env req = Run.done r) (he : r.err = some e) : e ≠ "" := by
  unfold NovelAIService.GenerateImage at h
  cases hm : env.marshal (buildPayload req (resolveSeed req.Seed env.rnd)) with
  | error e1 =>
    simp only [hm, Run.done.injEq] at h
    subst h
    simp only [Option.some.injEq] at he
    subst he
    exact append_ne_empty_left _ _ (by decide)
  | ok body =>
    simp only [hm] at h
    cases hn : env.newRequest body with
    | error e1 =>
      simp only [hn, Run.done.injEq] at h
      subst h
      simp only [Option.some.injEq] at he
      subst he
      exact append_ne_empty_left _ _ (by decide)
    | ok u =>
      simp only [hn] at h
      cases hsend : env.send s.apiKey body with
      | error e1 =>
        simp only [hsend, Run.done.injEq] at h
        subst h
        simp only [Option.some.injEq] at he
        subst he
        exact append_ne_empty_left _ _ (by decide)
      | ok resp =>
        simp only [hsend] at h
        by_cases hst : resp.StatusCode = 200
        · simp only [hst, ne_eq, not_true_eq_false, if_false] at h
          cases hb : resp.BodyErr with
          | some e1 =>
            simp only [hb, Run.done.injEq] at h
            subst h
            simp only [Option.some.injEq] at he
            subst he
            exact append_ne_empty_left _ _ (by decide)
          | none =>
            simp only [hb] at h
            cases hx : extractPNGFromZip env.zipNewReader resp.Body with
            | panic msg => simp [hx] at h
            | done d =>
              cases d with
              | error e1 =>
                simp only [hx, Run.done.injEq] at h
                subst h
                simp only [Option.some.injEq] at he
                subst he
                exact append_ne_empty_left _ _ (by decide)
              | ok img =>
                simp only [hx, Run.done.injEq] at h
                subst h
                simp at he
        · simp only [ne_eq, hst, not_false_eq_true, if_true, Run.done.injEq] at h
          subst h
          simp only [Option.some.injEq] at he
          subst he
          simp only [String.append_assoc]
          exact append_ne_empty_left _ _ (by decide)

/-- The handler when generation fails and the insert of the failed attempt
succeeds: one row with status failed is appended. -/
theorem handler_generation_failed (h : ImageHandler) (env : Provider) (senv : StorageEnv)
    (elapsedMs : Int) (st : Storage) (req : GenerateImageRequest) (r : GenerateResult)
    (e : String)
    (hgen : h.novelaiService.GenerateImage env (novelaiReqOf (withDefaults req)) = Run.done r)
    (he : r.err = some e) (hc : senv.createErr = none) :
    ∃ g : ImageGeneration,
      h.GenerateImage env senv elapsedMs st (Except.ok req)
        = Run.done ⟨⟨st.files, st.rows ++ [g], st.nextID + 1⟩,
            HandlerResponse.generateFailed e g.ID, r.posted⟩ ∧
      g.ID = st.nextID ∧ g.Status = "failed" ∧ g.ErrorMessage = e ∧ g.FilePath = "" ∧
      g.FileName = "" ∧ g.FileSize = 0 ∧ g.OriginalPayload = r.payload ∧
      g.Seed = req.Seed := by
  refine ⟨{ applyDefaults
      { ID := 0
        Prompt := (withDefaults req).Prompt
        NegativePrompt := (withDefaults req).NegativePrompt
        Seed := (withDefaults req).Seed
        Steps := (withDefaults req).Steps
        Width := (withDefaults req).Width
        Height := (withDefaults req).Height
        StylePresetID := (withDefaults req).StylePresetID
        OriginalPayload := r.payload
        FilePath := ""
        FileName := ""
        FileSize := 0
        Status := "failed"
        ErrorMessage := e
        GenerationTime := 0 } with ID := st.nextID },
    ?_, rfl, ?_, rfl, rfl, rfl, rfl, rfl, rfl⟩
  · simp only [ImageHandler.GenerateImage, hgen, he, ImageService.SaveFailedGeneration,
      dbCreate, hc]
  · simp [applyDefaults]

/-- The handler when generation fails and the insert of the failed attempt
fails too: the record is `nil` and reading its `ID` panics. -/
theorem handler_generation_failed_insert_failed (h : ImageHandler) (env : Provider)
    (senv : StorageEnv) (elapsedMs : Int) (st : Storage) (req : GenerateImageRequest)
    (r : GenerateResult) (e ce : String)
    (hgen : h.novelaiService.GenerateImage env (novelaiReqOf (withDefaults req)) = Run.done r)
    (he : r.err = some e) (hc : senv.createErr = some ce) :
    h.GenerateImage env senv elapsedMs st (Except.ok req)
      = Run.panic "nil pointer dereference" := by
  simp only [ImageHandler.GenerateImage, hgen, he, ImageService.SaveFailedGeneration,
    dbCreate, hc]

/-- The handler when generation succeeds and one of the three storage calls of
`SaveImageGeneration` fails: it answers "Failed to save image" and the table
is as before. -/
theorem handler_save_failed (h : ImageHandler) (env : Provider) (senv : StorageEnv)
    (elapsedMs : Int) (st : Storage) (req : GenerateImageRequest) (r : GenerateResult)
    (hgen : h.novelaiService.GenerateImage env (novelaiReqOf (withDefaults req)) = Run.done r)
    (he : r.err = none)
    (hfail : senv.mkdirErr ≠ none ∨ senv.writeErr ≠ none ∨ senv.createErr ≠ none) :
    ∃ (res : HandlerResult) (details : String),
      h.GenerateImage env senv elapsedMs st (Except.ok req) = Run.done res ∧
      res.response = HandlerResponse.saveFailed details ∧ res.storage.rows = st.rows ∧
      res.storage.nextID = st.nextID := by
  cases hmk : senv.mkdirErr with
  | some me =>
    refine ⟨⟨st, HandlerResponse.saveFailed ("failed to create directory: " ++ me), r.posted⟩,
      "failed to create directory: " ++ me, ?_, rfl, rfl, rfl⟩
    simp only [ImageHandler.GenerateImage, hgen, he, ImageService.SaveImageGeneration, hmk]
  | none =>
    cases hw : senv.writeErr with
    | some we =>
      refine ⟨⟨st, HandlerResponse.saveFailed ("failed to save image file: " ++ we), r.posted⟩,
        "failed to save image file: " ++ we, ?_, rfl, rfl, rfl⟩
      simp only [ImageHandler.GenerateImage, hgen, he, ImageService.SaveImageGeneration, hmk,
        osWriteFile, hw]
    | none =>
      cases hc : senv.createErr with
      | some ce =>
        refine ⟨⟨osRemove senv ⟨fun k =>
              if k = (imageFullPath h.imageService senv r.req.Seed) then
                some (r.imageData.getD [])
              else st.files k, st.rows, st.nextID⟩
            (imageFullPath h.imageService senv r.req.Seed),
            HandlerResponse.saveFailed ("failed to save to database: " ++ ce), r.posted⟩,
          "failed to save to database: " ++ ce, ?_, rfl, ?_, ?_⟩
        · simp only [ImageHandler.GenerateImage, hgen, he,
            ImageService.SaveImageGeneration, hmk, osWriteFile, hw, dbCreate, hc,
            imageFullPath, imageFileName]
        · unfold osRemove
          cases senv.removeErr <;> rfl
        · unfold osRemove
          cases senv.removeErr <;> rfl
      | none => simp [hmk, hw, hc] at hfail

/-- Updating the generation time of a key that no stored row carries leaves
the rows as they are. -/
theorem map_update_fresh (rows : List ImageGeneration) (id : Nat) (t : Int)
    (hfresh : ∀ g ∈ rows, g.ID ≠ id) :
    rows.map (fun g => if g.ID = id then { g with GenerationTime := t } else g) = rows := by
  induction rows with
  | nil => rfl
  | cons x xs ih =>
    have hx : x.ID ≠ id := hfresh x (List.mem_cons_self _ _)
    simp only [List.map_cons, hx, if_false]
    rw [ih (fun g hg => hfresh g (List.mem_cons_of_mem _ hg))]

/-- The handler when generation and all storage calls succeed: the image is
written, one row with status success is appended, and the response names
it. -/
theorem handler_success (h : ImageHandler) (env : Provider) (senv : StorageEnv)
    (elapsedMs : Int) (st : Storage) (req : GenerateImageRequest) (r : GenerateResult)
    (hkeys : st.KeysBelowNext)
    (hgen : h.novelaiService.GenerateImage env (novelaiReqOf (withDefaults req)) = Run.done r)
    (he : r.err = none) (hmk : senv.mkdirErr = none) (hw : senv.writeErr = none)
    (hc : senv.createErr = none) :
    ∃ (g : ImageGeneration) (img : Bytes), r.imageData = some img ∧
      h.GenerateImage env senv elapsedMs st (Except.ok req)
        = Run.done ⟨⟨fun k =>
              if k = (imageFullPath h.imageService senv req.Seed) then some img
              else st.files k, st.rows ++ [g], st.nextID + 1⟩,
            HandlerResponse.ok ⟨g.ID, "/files/" ++ g.FilePath, g.Seed,
              "Image generated successfully"⟩, r.posted⟩ ∧
      g.ID = st.nextID ∧ g.Status = "success" ∧ g.ErrorMessage = "" ∧
      g.FileName = imageFileName senv req.Seed ∧
      g.FilePath = filepathJoin senv.yearMonth (imageFileName senv req.Seed) ∧
      g.FileSize = img.length ∧ g.Seed = req.Seed ∧ g.OriginalPayload = r.payload := by
  obtain ⟨hreq, _, hsucc⟩ := GenerateImage_done _ _ _ _ hgen
  obtain ⟨_, _, img, himg⟩ := hsucc he
  have hseed : r.req.Seed = req.Seed := by rw [hreq]; rfl
  have hfresh : ∀ g ∈ st.rows, g.ID ≠ st.nextID := fun g hg => Nat.ne_of_lt (hkeys g hg)
  cases hu : senv.updateErr with
  | some ue =>
    refine ⟨{ applyDefaults
        { ID := 0
          Prompt := (withDefaults req).Prompt
          NegativePrompt := (withDefaults req).NegativePrompt
          Seed := req.Seed
          Steps := (withDefaults req).Steps
          Width := (withDefaults req).Width
          Height := (withDefaults req).Height
          StylePresetID := (withDefaults req).StylePresetID
          OriginalPayload := r.payload
          FilePath := filepathJoin senv.yearMonth (imageFileName senv req.Seed)
          FileName := imageFileName senv req.Seed
          FileSize := img.length
          Status := "success"
          ErrorMessage := ""
          GenerationTime := 0 } with ID := st.nextID }, img, himg, ?_, rfl, ?_, rfl, rfl, rfl,
        rfl, rfl, rfl⟩
    · simp only [ImageHandler.GenerateImage, hgen, he, ImageService.SaveImageGeneration, hmk,
        osWriteFile, hw, dbCreate, hc, ImageService.UpdateGenerationTime, hu, hseed, himg,
        Option.getD_some, imageFullPath, imageFileName]
    · simp [applyDefaults]
  | none =>
    refine ⟨{ applyDefaults
        { ID := 0
          Prompt := (withDefaults req).Prompt
          NegativePrompt := (withDefaults req).NegativePrompt
          Seed := req.Seed
          Steps := (withDefaults req).Steps
          Width := (withDefaults req).Width
          Height := (withDefaults req).Height
          StylePresetID := (withDefaults req).StylePresetID
          OriginalPayload := r.payload
          FilePath := filepathJoin senv.yearMonth (imageFileName senv req.Seed)
          FileName := imageFileName senv req.Seed
          FileSize := img.length
          Status := "success"
          ErrorMessage := ""
          GenerationTime := 0 } with ID := st.nextID, GenerationTime := elapsedMs },
        img, himg, ?_, rfl, ?_, rfl, rfl, rfl, rfl, rfl, rfl⟩
    · simp only [ImageHandler.GenerateImage, hgen, he, ImageService.SaveImageGeneration, hmk,
        osWriteFile, hw, dbCreate, hc, ImageService.UpdateGenerationTime, hu, hseed, himg,
        Option.getD_some, imageFullPath, imageFileName, List.map_append, List.map_cons,
        List.map_nil, if_true, map_update_fresh st.rows st.nextID elapsedMs hfresh]
    · simp [applyDefaults]

/-- Every run of the handler on a bound request that returns is of one of
three kinds: generation failed and the failed attempt was recorded;
generation succeeded and a storage call failed; generation and storage
succeeded. -/
theorem handler_done_cases (h : ImageHandler) (env : Provider) (senv : StorageEnv)
    (elapsedMs : Int) (st : Storage) (req : GenerateImageRequest) (res : HandlerResult)
    (hkeys : st.KeysBelowNext)
    (hrun : h.GenerateImage env senv elapsedMs st (Except.ok req) = Run.done res) :
    ∃ r : GenerateResult,
      h.novelaiService.GenerateImage env (novelaiReqOf (withDefaults req)) = Run.done r ∧
      ((∃ (e : String) (g : ImageGeneration), r.err = some e ∧ e ≠ "" ∧
          res = ⟨⟨st.files, st.rows ++ [g], st.nextID + 1⟩,
            HandlerResponse.generateFailed e g.ID, r.posted⟩ ∧
          g.ID = st.nextID ∧ g.Status = "failed" ∧ g.ErrorMessage = e ∧ g.FilePath = "" ∧
          g.FileName = "" ∧ g.FileSize = 0) ∨
       (∃ details : String, r.err = none ∧
          res.response = HandlerResponse.saveFailed details ∧ res.storage.rows = st.rows ∧
          res.storage.nextID = st.nextID) ∨
       (∃ (g : ImageGeneration) (img : Bytes), r.err = none ∧ r.imageData = some img ∧
          res = ⟨⟨fun k =>
                if k = (imageFullPath h.imageService senv req.Seed) then some img
                else st.files k, st.rows ++ [g], st.nextID + 1⟩,
              HandlerResponse.ok ⟨g.ID, "/files/" ++ g.FilePath, g.Seed,
                "Image generated successfully"⟩, r.posted⟩ ∧
          g.ID = st.nextID ∧ g.Status = "success" ∧
          g.FileName = imageFileName senv req.Seed ∧
          g.FilePath = filepathJoin senv.yearMonth (imageFileName senv req.Seed) ∧
          g.FileSize = img.length)) := by
  cases hgen : h.novelaiService.GenerateImage env (novelaiReqOf (withDefaults req)) with
  | panic msg =>
    simp [ImageHandler.GenerateImage, hgen] at hrun
  | done r =>
    refine ⟨r, rfl, ?_⟩
    cases he : r.err with
    | some e =>
      cases hc : senv.createErr with
      | some ce =>
        rw [handler_generation_failed_insert_failed h env senv elapsedMs st req r e ce
          hgen he hc] at hrun
        exact absurd hrun (by simp)
      | none =>
        obtain ⟨g, hg, h1, h2, h3, h4, h5, h6, _, _⟩ :=
          handler_generation_failed h env senv elapsedMs st req r e hgen he hc
        rw [hg, Run.done.injEq] at hrun
        exact Or.inl ⟨e, g, rfl, GenerateImage_err_ne_empty _ _ _ _ _ hgen he, hrun.symm,
          h1, h2, h3, h4, h5, h6⟩
    | none =>
      by_cases hfail : senv.mkdirErr ≠ none ∨ senv.writeErr ≠ none ∨ senv.createErr ≠ none
      · obtain ⟨res1, details, hr, h1, h2, h3⟩ :=
          handler_save_failed h env senv elapsedMs st req r hgen he hfail
        rw [hr, Run.done.injEq] at hrun
        subst hrun
        exact Or.inr (Or.inl ⟨details, rfl, h1, h2, h3⟩)
      · simp only [not_or, not_not] at hfail
        obtain ⟨g, img, himg, hg, h1, h2, _, h4, h5, h6, _, _⟩ :=
          handler_success h env senv elapsedMs st req r hkeys hgen he hfail.1 hfail.2.1
            hfail.2.2
        rw [hg, Run.done.injEq] at hrun
        exact Or.inr (Or.inr ⟨g, img, rfl, himg, hrun.symm, h1, h2, h4, h5, h6⟩)

/-- The handler keeps every stored key below the next key. -/
theorem handler_keeps_keys (h : ImageHandler) (env : Provider) (senv : StorageEnv)
    (elapsedMs : Int) (st : Storage) (req : GenerateImageRequest) (res : HandlerResult)
    (hkeys : st.KeysBelowNext)
    (hrun : h.GenerateImage env senv elapsedMs st (Except.ok req) = Run.done res) :
    res.storage.KeysBelowNext := by
  obtain ⟨r, _, hcase⟩ := handler_done_cases h env senv elapsedMs st req res hkeys hrun
  rcases hcase with ⟨e, g, _, _, hres, hid, _⟩ | ⟨d, _, _, hrows, hnext⟩ |
    ⟨g, img, _, _, hres, hid, _⟩
  · subst hres
    intro x hx
    simp only [List.mem_append, List.mem_singleton] at hx
    rcases hx with hx | hx
    · exact Nat.lt_succ_of_lt (hkeys x hx)
    · subst hx
      show x.ID < st.nextID + 1
      omega
  · intro x hx
    rw [hrows] at hx
    rw [hnext]
    exact hkeys x hx
  · subst hres
    intro x hx
    simp only [List.mem_append, List.mem_singleton] at hx
    rcases hx with hx | hx
    · exact Nat.lt_succ_of_lt (hkeys x hx)
    · subst hx
      show x.ID < st.nextID + 1
      omega

/-! ## One record per attempt -/

/-- The empty storage has all its keys below the next key. -/
theorem emptyStorage_keys : emptyStorage.KeysBelowNext := by
  intro g hg
  cases hg

/-- C12, as stated, fails: when generation succeeds and the file write fails,
the handler reaches the orchestrator and leaves no new record. -/
theorem no_record_when_write_fails :
    ¬ ∃ (res : HandlerResult) (g : ImageGeneration),
      exampleHandler.GenerateImage providerOk writeFails 1500 emptyStorage
        (Except.ok randomSeedRequest) = Run.done res ∧
      res.storage.rows = emptyStorage.rows ++ [g] := by
  rintro ⟨res, g, h1, h2⟩
  have h3 : exampleHandler.GenerateImage providerOk writeFails 1500 emptyStorage
      (Except.ok randomSeedRequest) = Run.done writeFailsResult := rfl
  rw [h3, Run.done.injEq] at h1
  subst h1
  simp [writeFailsResult, emptyStorage] at h2

/-- C12, amended: a call of the generate handler whose call of the
orchestrator returns leaves at most one new record. When generation succeeds
and the directory creation, the file write and the insert all succeed, the
table gains exactly one row, with status success; when generation fails and
the insert succeeds, it gains exactly one row, with status failed; when
generation succeeds and one of the three storage calls fails, the handler
answers with an error and the table is as before. -/
theorem handler_record_count (h : ImageHandler) (env : Provider) (senv : StorageEnv)
    (elapsedMs : Int) (st : Storage) (req : GenerateImageRequest) (r : GenerateResult)
    (hkeys : st.KeysBelowNext)
    (hgen : h.novelaiService.GenerateImage env (novelaiReqOf (withDefaults req))
      = Run.done r) :
    (r.err = none → senv.mkdirErr = none → senv.writeErr = none → senv.createErr = none →
      ∃ (res : HandlerResult) (g : ImageGeneration),
        h.GenerateImage env senv elapsedMs st (Except.ok req) = Run.done res ∧
        res.storage.rows = st.rows ++ [g] ∧ g.Status = "success") ∧
    (r.err = none →
      (senv.mkdirErr ≠ none ∨ senv.writeErr ≠ none ∨ senv.createErr ≠ none) →
      ∃ (res : HandlerResult) (details : String),
        h.GenerateImage env senv elapsedMs st (Except.ok req) = Run.done res ∧
        res.response = HandlerResponse.saveFailed details ∧ res.storage.rows = st.rows) ∧
    (∀ e, r.err = some e → senv.createErr = none →
      ∃ (res : HandlerResult) (g : ImageGeneration),
        h.GenerateImage env senv elapsedMs st (Except.ok req) = Run.done res ∧
        res.storage.rows = st.rows ++ [g] ∧ g.Status = "failed") := by
  refine ⟨?_, ?_, ?_⟩
  · intro he hmk hw hc
    obtain ⟨g, img, _, hg, _, hs, _⟩ :=
      handler_success h env senv elapsedMs st req r hkeys hgen he hmk hw hc
    exact ⟨_, g, hg, rfl, hs⟩
  · intro he hfail
    obtain ⟨res, details, hr, h1, h2, _⟩ :=
      handler_save_failed h env senv elapsedMs st req r hgen he hfail
    exact ⟨res, details, hr, h1, h2⟩
  · intro e he hc
    obtain ⟨g, hg, _, hs, _⟩ :=
      handler_generation_failed h env senv elapsedMs st req r e hgen he hc
    exact ⟨_, g, hg, rfl, hs⟩

/-- Witness of `handler_record_count`: the provider answers 500 and the insert
succeeds, so one row with status failed is appended. -/
theorem handler_record_count_witness :
    (emptyStorage.KeysBelowNext ∧
      exampleHandler.novelaiService.GenerateImage provider500
        (novelaiReqOf (withDefaults randomSeedRequest)) = Run.done failedResult ∧
      failedResult.err = some "API error 500: no" ∧ storageOk.createErr = none) ∧
    ∃ (res : HandlerResult) (g : ImageGeneration),
      exampleHandler.GenerateImage provider500 storageOk 1500 emptyStorage
        (Except.ok randomSeedRequest) = Run.done res ∧
      res.storage.rows = emptyStorage.rows ++ [g] ∧ g.Status = "failed" :=
  ⟨⟨emptyStorage_keys, rfl, rfl, rfl⟩,
    (handler_record_count exampleHandler provider500 storageOk 1500 emptyStorage
      randomSeedRequest failedResult emptyStorage_keys rfl).2.2 "API error 500: no" rfl rfl⟩

/-! ## The status invariant of stored records -/

/-- C13, as stated, fails: a first call stores a record with status success
and its file; a second call with the same seed in the same second, whose
generation succeeds and whose insert fails, writes the same path and removes
the file again. Afterwards the table holds a record with status success whose
file does not exist under the image root. -/
theorem stored_success_record_loses_file :
    exampleHandler.GenerateImage providerOk storageOk 1500 emptyStorage
      (Except.ok randomSeedRequest) = Run.done randomSeedResult ∧
    exampleHandler.GenerateImage providerOk insertFails 1500 randomSeedResult.storage
      (Except.ok randomSeedRequest) = Run.done lostFileResult ∧
    ¬ (∀ g ∈ lostFileResult.storage.rows, g.Status = "success" →
        lostFileResult.storage.files (exampleHandler.imageService.GetImageFilePath g)
          ≠ none) := by
  refine ⟨rfl, rfl, ?_⟩
  decide

/-- The record a call appends has the shape of the status invariant, and the
records that were stored before keep theirs. -/
theorem recordShape_append (rows : List ImageGeneration) (g : ImageGeneration)
    (hg : RecordShape g) (hrows : ∀ x ∈ rows, RecordShape x) :
    ∀ x ∈ rows ++ [g], RecordShape x := by
  intro x hx
  simp only [List.mem_append, List.mem_singleton] at hx
  rcases hx with hx | hx
  · exact hrows x hx
  · rw [hx]
    exact hg

/-- C13, amended: every record the generate handler stores satisfies the
status invariant at the end of the call that stores it. When the handler
answers with a success body, the table has gained exactly one row, with status
success, a non-empty file name, the non-empty relative path
`filepath.Join(yearMonth, fileName)`, and a file size equal to the number of
image bytes, and the file the call wrote under the image root, at
`filepath.Join(filepath.Join(imagesDir, yearMonth), fileName)`, exists and
holds the image bytes. When it answers "Failed to generate image" (for
example after a provider HTTP 500), the table has gained exactly one row, with
status failed, the non-empty error text, an empty file path, an empty file
name and file size 0. In the remaining case nothing is stored. The rows stored
before are untouched, so the part of the invariant that concerns a
record's own fields holds for every stored record after the call if it did
before. -/
theorem stored_record_invariant (h : ImageHandler) (env : Provider) (senv : StorageEnv)
    (elapsedMs : Int) (st : Storage) (req : GenerateImageRequest) (res : HandlerResult)
    (hkeys : st.KeysBelowNext)
    (hrun : h.GenerateImage env senv elapsedMs st (Except.ok req) = Run.done res) :
    (∀ resp, res.response = HandlerResponse.ok resp →
      ∃ (g : ImageGeneration) (r : GenerateResult) (img : Bytes),
        h.novelaiService.GenerateImage env (novelaiReqOf (withDefaults req)) = Run.done r ∧
        r.imageData = some img ∧
        res.storage.rows = st.rows ++ [g] ∧ g.ID = resp.ID ∧ g.Status = "success" ∧
        g.FileName ≠ "" ∧ g.FilePath ≠ "" ∧
        g.FilePath = filepathJoin senv.yearMonth g.FileName ∧
        res.storage.files (imageFullPath h.imageService senv req.Seed) = some img ∧
        g.FileSize = img.length) ∧
    (∀ details id, res.response = HandlerResponse.generateFailed details id →
      ∃ g : ImageGeneration,
        res.storage.rows = st.rows ++ [g] ∧ g.ID = id ∧ g.Status = "failed" ∧
        g.ErrorMessage = details ∧ g.ErrorMessage ≠ "" ∧ g.FilePath = "" ∧
        g.FileName = "" ∧ g.FileSize = 0) ∧
    (∀ details, res.response = HandlerResponse.saveFailed details →
      res.storage.rows = st.rows) ∧
    (∀ e, res.response ≠ HandlerResponse.badRequest e) ∧
    ((∀ x ∈ st.rows, RecordShape x) → ∀ x ∈ res.storage.rows, RecordShape x) := by
  obtain ⟨r, hgen, hcase⟩ := handler_done_cases h env senv elapsedMs st req res hkeys hrun
  rcases hcase with ⟨e, g, _, hne, hres, hid, hs, hem, hfp, hfn, hfs⟩ |
    ⟨d, _, hresp, hrows, _⟩ | ⟨g, img, _, himg, hres, hid, hs, hfn, hfp, hfs⟩
  · subst hres
    have hshape : RecordShape g := by
      refine ⟨Or.inr hs, ?_, ?_⟩
      · intro h1
        rw [hs] at h1
        exact absurd h1 (by decide)
      · intro _
        refine ⟨?_, hfp, hfn, hfs⟩
        rw [hem]
        exact hne
    refine ⟨?_, ?_, ?_, ?_, ?_⟩
    · intro resp hresp
      simp at hresp
    · intro details id hresp
      simp only [HandlerResponse.generateFailed.injEq] at hresp
      refine ⟨g, rfl, hresp.2, hs, hem.trans hresp.1, ?_, hfp, hfn, hfs⟩
      rw [hem]
      exact hne
    · intro details hresp
      simp at hresp
    · intro e1 hresp
      simp at hresp
    · intro hold
      exact recordShape_append st.rows g hshape hold
  · refine ⟨?_, ?_, ?_, ?_, ?_⟩
    · intro resp h1
      rw [hresp] at h1
      simp at h1
    · intro details id h1
      rw [hresp] at h1
      simp at h1
    · intro _ _
      exact hrows
    · intro e1 h1
      rw [hresp] at h1
      simp at h1
    · intro hold x hx
      rw [hrows] at hx
      exact hold x hx
  · subst hres
    have hname : g.FileName ≠ "" := by
      rw [hfn]
      exact imageFileName_ne_empty senv req.Seed
    have hpath : g.FilePath = filepathJoin senv.yearMonth g.FileName := by
      rw [hfp, hfn]
    have hpne : g.FilePath ≠ "" := by
      rw [hpath]
      exact filepathJoin_ne_empty _ _ hname
    have hshape : RecordShape g := by
      refine ⟨Or.inl hs, ?_, ?_⟩
      · intro _
        refine ⟨hname, hpne, ?_, senv.yearMonth, hpath⟩
        rw [hfs]
        exact Int.natCast_nonneg _
      · intro h1
        rw [hs] at h1
        exact absurd h1 (by decide)
    refine ⟨?_, ?_, ?_, ?_, ?_⟩
    · intro resp hresp
      simp only [HandlerResponse.ok.injEq] at hresp
      refine ⟨g, r, img, hgen, himg, rfl, ?_, hs, hname, hpne, hpath, ?_, hfs⟩
      · rw [← hresp]
      · simp only [if_true]
    · intro details id hresp
      simp at hresp
    · intro details hresp
      simp at hresp
    · intro e1 hresp
      simp at hresp
    · intro hold
      exact recordShape_append st.rows g hshape hold

/-- Witness of `stored_record_invariant`: with the image root `./data/images`
the provider succeeds and the storage calls succeed; the stored row has status
success, and the file exists at `data/images/2025/01/...`, which is also the
join of the image root with the relative path of the row. -/
theorem stored_record_invariant_witness :
    (emptyStorage.KeysBelowNext ∧
      exampleHandler.GenerateImage providerOk storageOk 1500 emptyStorage
        (Except.ok randomSeedRequest) = Run.done randomSeedResult ∧
      randomSeedResult.response
        = HandlerResponse.ok ⟨1, "/files/2025/01/novelai_20250101_000000_-1.png", -1,
            "Image generated successfully"⟩) ∧
    (∀ g ∈ randomSeedResult.storage.rows,
      exampleHandler.imageService.GetImageFilePath g
        = imageFullPath exampleHandler.imageService storageOk randomSeedRequest.Seed) ∧
    ∃ (g : ImageGeneration) (r : GenerateResult) (img : Bytes),
      exampleHandler.novelaiService.GenerateImage providerOk
        (novelaiReqOf (withDefaults randomSeedRequest)) = Run.done r ∧
      r.imageData = some img ∧
      randomSeedResult.storage.rows = emptyStorage.rows ++ [g] ∧ g.ID = 1 ∧
      g.Status = "success" ∧ g.FileName ≠ "" ∧ g.FilePath ≠ "" ∧
      g.FilePath = filepathJoin storageOk.yearMonth g.FileName ∧
      randomSeedResult.storage.files
        (imageFullPath exampleHandler.imageService storageOk randomSeedRequest.Seed)
        = some img ∧
      g.FileSize = img.length :=
  ⟨⟨emptyStorage_keys, rfl, rfl⟩, by decide,
    (stored_record_invariant exampleHandler providerOk storageOk 1500 emptyStorage
      randomSeedRequest randomSeedResult emptyStorage_keys rfl).1
      ⟨1, "/files/2025/01/novelai_20250101_000000_-1.png", -1,
        "Image generated successfully"⟩ rfl⟩

/-! ## Faults of the handler -/

/-- C15 (what the code does): when generation fails and the insert of the
failed attempt fails too, the handler does not answer: `SaveFailedGeneration`
returns a `nil` record, its error is discarded, and reading `generation.ID`
panics. -/
theorem handler_panics_when_failure_not_recorded (h : ImageHandler) (env : Provider)
    (senv : StorageEnv) (elapsedMs : Int) (st : Storage) (req : GenerateImageRequest)
    (r : GenerateResult) (e ce : String)
    (hgen : h.novelaiService.GenerateImage env (novelaiReqOf (withDefaults req)) = Run.done r)
    (he : r.err = some e) (hc : senv.createErr = some ce) :
    h.GenerateImage env senv elapsedMs st (Except.ok req)
      = Run.panic "nil pointer dereference" ∧
    ∀ res, h.GenerateImage env senv elapsedMs st (Except.ok req) ≠ Run.done res := by
  have hp := handler_generation_failed_insert_failed h env senv elapsedMs st req r e ce
    hgen he hc
  refine ⟨hp, ?_⟩
  intro res hres
  rw [hp] at hres
  exact absurd hres (by simp)

/-- Witness of `handler_panics_when_failure_not_recorded`: the provider answers
500 and the database is locked. -/
theorem handler_panics_when_failure_not_recorded_witness :
    (exampleHandler.novelaiService.GenerateImage provider500
        (novelaiReqOf (withDefaults randomSeedRequest)) = Run.done failedResult ∧
      failedResult.err = some "API error 500: no" ∧
      insertFails.createErr = some "database is locked") ∧
    exampleHandler.GenerateImage provider500 insertFails 1500 emptyStorage
      (Except.ok randomSeedRequest) = Run.panic "nil pointer dereference" :=
  ⟨⟨rfl, rfl, rfl⟩,
    (handler_panics_when_failure_not_recorded exampleHandler provider500 insertFails 1500
      emptyStorage randomSeedRequest failedResult "API error 500: no" "database is locked"
      rfl rfl rfl).1⟩

/-! ## Interleavings -/

/-- A request that makes its calls without interruption ends, after at most
eight calls, with the ledger and the decision of `RateLimitMiddleware`. -/
theorem runSolo_eq_middleware (siteverify : String → String → String → Bool)
    (secret : String) (s : RateLimitService) (clk : Clock) (req : Request) :
    Thread.runSolo secret clk 8 s ⟨siteverify, req, Stage.checkPrivilege⟩
      = ((RateLimitMiddleware siteverify secret s clk req).service,
         ⟨siteverify, req,
          Stage.finished (RateLimitMiddleware siteverify secret s clk req).decision⟩) := by
  unfold RateLimitMiddleware
  cases hp : CheckPrivilegeKey s req.privilegeKey <;>
  cases hg : CheckGlobalRateLimit s clk.checkGlobal <;>
  cases hi : CheckIPRateLimit s req.clientIP clk.checkIP <;>
  cases ht : CheckTurnstileRequired s req.clientIP clk.checkTurnstile <;>
  by_cases htok : turnstileTokenOf req = "" <;>
  cases hv : verifyTurnstileToken siteverify (turnstileTokenOf req) req.clientIP secret <;>
  simp [Thread.runSolo, Thread.step, Clock.reading, hp, hg, hi, ht, htok, hv]

/-- C17 (what the code does): the admission check and the recording are
separate calls. On a fresh ledger, two requests of one client that alternate
call by call, so that both make their checks before either records, are both
let through within sixteen milliseconds; the same two requests with the same
clock readings, processed one after the other, end with the first let through
and the second denied by the global limit. -/
theorem interleaved_requests_both_admitted :
    ((runSchedule "secret" (NewRateLimitService "") racingThreads checksFirstSchedule).2.map
        fun th => th.stage)
      = [Stage.finished Decision.next, Stage.finished Decision.next] ∧
    ((runSchedule "secret" (NewRateLimitService "") racingThreads
        oneAfterTheOtherSchedule).2.map fun th => th.stage)
      = [Stage.finished Decision.next,
         Stage.finished (Decision.abort 429 "GLOBAL_RATE_LIMIT")] := by
  decide

end NovelAI
